import Mathlib

/-!
# Verification of the flight-search agent core

A shallow embedding, in Lean 4, of the value-resolution and search-orchestration
core of the flight-search agent:

* `transfer-partners.ts` — the point-transfer graph and the funding-path resolver;
* the value engine — cash-price buckets, cash comparables, cents-per-point
  yield and rating, composite value score;
* `sweet-spots.ts` — the curated sweet-spot rule table and its matcher;
* the Roame job poller (`pollResults`);
* the SerpAPI usage limiter and adapter;
* the top-level orchestrator (`runSearch`).

Modelling conventions:

* JavaScript numbers are embedded as `ℚ` (all arithmetic in the verified code
  paths is exact decimal arithmetic on small values); `Math.floor`, `Math.ceil`
  and `Math.round` are `Int.floor`, `Int.ceil` and `round` (round-half-up,
  matching JS `Math.round` on the values that occur).
* `T | null` fields are `Option`; JavaScript truthiness of a numeric option
  (`x && ...`, `x || d`) is modelled explicitly (`none` and `some 0` are falsy).
* Fallible operations (adapter calls, fetches) are explicit outcome values;
  the functions of the embedding are total Lean functions, which is the formal
  counterpart of "never throws to the caller".
* Fields of the TypeScript records that are only formatted into display strings
  and never branched on (timestamps, URLs, flight numbers, display text) are
  omitted from the embedded records; every field that any verified code path
  reads is present.
* `Array.prototype.sort(cmp)` (a stable sort under a consistent comparator in
  all modern engines) is embedded as the stable `List.insertionSort` over the
  relation `le a b ↔ cmp a b ≤ 0`.
-/

/-- JS `Array.prototype.indexOf` on a list of numbers: first index of `x`,
`-1` when absent. -/
def jsIndexOf (x : ℚ) : List ℚ → ℤ
  | [] => -1
  | y :: ys =>
      if y = x then 0
      else
        let r := jsIndexOf x ys
        if r = -1 then -1 else r + 1

/-! ## Transfer-partner graph (`transfer-partners.ts`) -/

/-- One directed transfer edge of the point-transfer graph.
`rate` embeds the source field `ratio`; `notes` is kept (it is copied into
funding paths). Display-only `fromName`/`toName` are kept as they are copied
into funding paths too. -/
structure TransferPartner where
  fromKey : String
  fromName : String
  toKey : String
  toName : String
  rate : ℚ
  transferTime : String
  notes : Option String := none
deriving DecidableEq

/-- The static `TRANSFER_PARTNERS` table. -/
def TRANSFER_PARTNERS : List TransferPartner := [
  -- Chase Ultimate Rewards
  ⟨"chase-ur", "Chase UR", "UNITED", "United MileagePlus", 1, "instant", none⟩,
  ⟨"chase-ur", "Chase UR", "BRITISH_AIRWAYS", "BA Avios", 1, "instant", none⟩,
  ⟨"chase-ur", "Chase UR", "FLYING_BLUE", "Flying Blue", 1, "instant", none⟩,
  ⟨"chase-ur", "Chase UR", "AEROPLAN", "Aeroplan", 1, "instant", none⟩,
  ⟨"chase-ur", "Chase UR", "VIRGIN_ATLANTIC", "Virgin Atlantic", 1, "instant", none⟩,
  ⟨"chase-ur", "Chase UR", "SINGAPORE", "Singapore KrisFlyer", 1, "1-2 days", none⟩,
  ⟨"chase-ur", "Chase UR", "southwest", "Southwest RR", 1, "instant", none⟩,
  ⟨"chase-ur", "Chase UR", "hyatt", "World of Hyatt", 1, "instant", none⟩,
  ⟨"chase-ur", "Chase UR", "marriott", "Marriott Bonvoy", 1, "1-2 days", none⟩,
  ⟨"chase-ur", "Chase UR", "IHG", "IHG One Rewards", 1, "1-2 days", none⟩,
  -- Amex Membership Rewards
  ⟨"amex-mr", "Amex MR", "DELTA", "Delta SkyMiles", 1, "instant", none⟩,
  ⟨"amex-mr", "Amex MR", "FLYING_BLUE", "Flying Blue", 1, "instant", none⟩,
  ⟨"amex-mr", "Amex MR", "BRITISH_AIRWAYS", "BA Avios", 1, "instant", none⟩,
  ⟨"amex-mr", "Amex MR", "AEROPLAN", "Aeroplan", 1, "instant", none⟩,
  ⟨"amex-mr", "Amex MR", "VIRGIN_ATLANTIC", "Virgin Atlantic", 1, "instant", none⟩,
  ⟨"amex-mr", "Amex MR", "SINGAPORE", "Singapore KrisFlyer", 1, "1-2 days", none⟩,
  ⟨"amex-mr", "Amex MR", "ANA", "ANA Mileage Club", 1, "1-2 days", none⟩,
  ⟨"amex-mr", "Amex MR", "CATHAY", "Cathay Asia Miles", 1, "1-2 days", none⟩,
  ⟨"amex-mr", "Amex MR", "EMIRATES", "Emirates Skywards", 1, "instant", none⟩,
  ⟨"amex-mr", "Amex MR", "QATAR", "Qatar Privilege Club", 1, "1-2 days", none⟩,
  ⟨"amex-mr", "Amex MR", "ETIHAD", "Etihad Guest", 1, "instant", none⟩,
  ⟨"amex-mr", "Amex MR", "hilton", "Hilton Honors", 2, "instant", some "1:2 ratio (good for Hilton)"⟩,
  ⟨"amex-mr", "Amex MR", "marriott", "Marriott Bonvoy", 1, "1-2 days", none⟩,
  -- Bilt Rewards
  ⟨"bilt", "Bilt Rewards", "UNITED", "United MileagePlus", 1, "instant", none⟩,
  ⟨"bilt", "Bilt Rewards", "AMERICAN", "AA AAdvantage", 1, "instant", none⟩,
  ⟨"bilt", "Bilt Rewards", "ALASKA", "Alaska Mileage Plan", 1, "instant", none⟩,
  ⟨"bilt", "Bilt Rewards", "FLYING_BLUE", "Flying Blue", 1, "instant", none⟩,
  ⟨"bilt", "Bilt Rewards", "AEROPLAN", "Aeroplan", 1, "instant", none⟩,
  ⟨"bilt", "Bilt Rewards", "BRITISH_AIRWAYS", "BA Avios", 1, "instant", none⟩,
  ⟨"bilt", "Bilt Rewards", "VIRGIN_ATLANTIC", "Virgin Atlantic", 1, "instant", none⟩,
  ⟨"bilt", "Bilt Rewards", "EMIRATES", "Emirates Skywards", 1, "instant", none⟩,
  ⟨"bilt", "Bilt Rewards", "TURKISH", "Turkish Miles&Smiles", 1, "instant", none⟩,
  ⟨"bilt", "Bilt Rewards", "hyatt", "World of Hyatt", 1, "instant", none⟩,
  ⟨"bilt", "Bilt Rewards", "IHG", "IHG One Rewards", 1, "instant", none⟩,
  -- Marriott → Airlines
  ⟨"marriott", "Marriott Bonvoy", "UNITED", "United MileagePlus", 333/1000, "3-5 days", some "3:1 ratio, +5K bonus per 60K"⟩,
  ⟨"marriott", "Marriott Bonvoy", "ALASKA", "Alaska Mileage Plan", 333/1000, "3-5 days", some "3:1 ratio, +5K bonus per 60K"⟩,
  ⟨"marriott", "Marriott Bonvoy", "DELTA", "Delta SkyMiles", 333/1000, "3-5 days", some "3:1 ratio, +5K bonus per 60K"⟩,
  ⟨"marriott", "Marriott Bonvoy", "BRITISH_AIRWAYS", "BA Avios", 333/1000, "3-5 days", some "3:1 ratio, +5K bonus per 60K"⟩,
  ⟨"marriott", "Marriott Bonvoy", "AEROPLAN", "Aeroplan", 333/1000, "3-5 days", some "3:1 ratio, +5K bonus per 60K"⟩,
  ⟨"marriott", "Marriott Bonvoy", "FLYING_BLUE", "Flying Blue", 333/1000, "3-5 days", some "3:1 ratio, +5K bonus per 60K"⟩
]

/-- `findTransferPaths`: all edges into a target program. -/
def findTransferPaths (toProgramKey : String) : List TransferPartner :=
  TRANSFER_PARTNERS.filter (fun tp => tp.toKey == toProgramKey)

/-- A `(program, balance)` entry of the balances input. -/
structure Balance where
  programKey : String
  program : String
  balance : ℚ
deriving DecidableEq

/-- A funding path produced by `findFundingPaths`. -/
structure FundingPath where
  source : String
  sourceName : String
  sourceBalance : ℚ
  pointsToTransfer : ℚ
  milesReceived : ℚ
  rate : ℚ
  transferTime : String
  covers : Bool
  notes : Option String := none
deriving DecidableEq

/-- The comparator passed to `paths.sort` in `findFundingPaths`
(`-1`, `1`, or `b.milesReceived - a.milesReceived`). -/
def fpCmp (a b : FundingPath) : ℚ :=
  if a.transferTime = "already have" then -1
  else if b.transferTime = "already have" then 1
  else if a.covers = true ∧ b.covers = false then -1
  else if a.covers = false ∧ b.covers = true then 1
  else b.milesReceived - a.milesReceived

/-- `a` sorts at-or-before `b` under `fpCmp`. -/
def fpLe (a b : FundingPath) : Prop :=
  fpCmp a b ≤ 0

instance fpLe.decidableRel : DecidableRel fpLe :=
  fun a b => inferInstanceAs (Decidable (fpCmp a b ≤ 0))

/-- `findFundingPaths`: direct balance first, then one-transfer paths over the
transfer graph, sorted by the `fpCmp` comparator. -/
def findFundingPaths (toProgramKey : String) (amountNeeded : ℚ)
    (balances : List Balance) : List FundingPath :=
  let directBalance := balances.find? (fun b => b.programKey == toProgramKey)
  let directPaths : List FundingPath :=
    match directBalance with
    | some db =>
        if db.balance > 0 then
          [{ source := toProgramKey, sourceName := db.program,
             sourceBalance := db.balance, pointsToTransfer := 0,
             milesReceived := db.balance, rate := 1,
             transferTime := "already have",
             covers := decide (db.balance ≥ amountNeeded),
             notes := some "Direct balance" }]
        else []
    | none => []
  let transferPaths := findTransferPaths toProgramKey
  let tPaths : List FundingPath := transferPaths.filterMap (fun tp =>
    match balances.find? (fun b => b.programKey == tp.fromKey) with
    | none => none
    | some sb =>
        if sb.balance ≤ 0 then none
        else
          let milesFromTransfer : ℤ := ⌊sb.balance * tp.rate⌋
          let pointsNeededFromSource : ℤ := ⌈amountNeeded / tp.rate⌉
          some { source := tp.fromKey, sourceName := tp.fromName,
                 sourceBalance := sb.balance,
                 pointsToTransfer := min (pointsNeededFromSource : ℚ) sb.balance,
                 milesReceived := min (milesFromTransfer : ℚ) amountNeeded,
                 rate := tp.rate, transferTime := tp.transferTime,
                 covers := decide ((milesFromTransfer : ℚ) ≥ amountNeeded ∨
                   (match directBalance with
                    | some db => db.balance
                    | none => 0) + (milesFromTransfer : ℚ) ≥ amountNeeded),
                 notes := tp.notes })
  List.insertionSort fpLe (directPaths ++ tPaths)

/-- Which path class `canAfford` reports. -/
inductive AffordPath
  | none_
  | direct
  | transfer
  | combination
  | insufficient
deriving DecidableEq

/-- `canAfford`: collapse the funding paths into one affordability verdict.
The human-readable `details` string of the source is display-only and omitted. -/
def canAfford (toProgramKey : String) (amountNeeded : ℚ)
    (balances : List Balance) : Bool × AffordPath :=
  let paths := findFundingPaths toProgramKey amountNeeded balances
  if paths.isEmpty then (false, .none_)
  else
    match paths.find? (fun p => p.transferTime == "already have" && p.covers) with
    | some _ => (true, .direct)
    | none =>
        match paths.find? (fun p => p.covers && !(p.transferTime == "already have")) with
        | some _ => (true, .transfer)
        | none =>
            let totalAvailable := (paths.map (fun p => p.milesReceived)).sum
            if totalAvailable ≥ amountNeeded then (true, .combination)
            else (false, .insufficient)

/-! ## Sweet-spot database and matcher (`sweet-spots.ts`) -/

/-- A curated sweet-spot rule. Optional airport/region lists are embedded as
plain lists with `[]` for "absent" (the source tests them with `?.length`,
which treats `undefined` and `[]` identically). The display-only
`routeType`, `bookingTip`, `airlines` and `oneWay` fields, never read by the
matching logic, are omitted. -/
structure SweetSpot where
  id : String
  program : String
  programName : String
  origins : List String := []
  destinations : List String := []
  originRegions : List String := []
  destRegions : List String := []
  cabin : String
  maxPoints : ℚ
  typicalCashPrice : ℚ
  expectedCpp : ℚ
  description : String
deriving DecidableEq

def US_AIRPORTS : List String :=
  ["LAX", "JFK", "SFO", "ORD", "MIA", "EWR", "IAD", "DFW", "ATL", "SEA", "BOS", "IAH", "DEN", "PHX", "LAS"]

def EUROPE_AIRPORTS : List String :=
  ["LHR", "CDG", "AMS", "FRA", "FCO", "MAD", "BCN", "IST", "ZRH", "MUC", "VIE", "CPH", "DUB", "LIS"]

def ASIA_AIRPORTS : List String :=
  ["NRT", "HND", "ICN", "HKG", "SIN", "BKK", "TPE", "KUL", "CGK", "MNL", "DEL", "BOM", "PVG", "PEK"]

def MIDDLE_EAST_AIRPORTS : List String :=
  ["DXB", "DOH", "AUH", "JED", "RUH", "AMM", "TLV"]

def OCEANIA_AIRPORTS : List String :=
  ["SYD", "MEL", "AKL", "BNE"]

/-- `matchesRegion`: is `airport` in the named region's airport list? -/
def matchesRegion (airport region : String) : Bool :=
  if region = "US" then US_AIRPORTS.contains airport
  else if region = "Europe" then EUROPE_AIRPORTS.contains airport
  else if region = "Asia" then ASIA_AIRPORTS.contains airport
  else if region = "Middle East" then MIDDLE_EAST_AIRPORTS.contains airport
  else if region = "Oceania" then OCEANIA_AIRPORTS.contains airport
  else false

/-- The `SWEET_SPOTS` table. -/
def SWEET_SPOTS : List SweetSpot := [
  { id := "fb-us-europe-j", program := "FLYING_BLUE", programName := "Flying Blue",
    originRegions := ["US"], destRegions := ["Europe"],
    cabin := "business", maxPoints := 55000, typicalCashPrice := 4000, expectedCpp := 7,
    description := "Flying Blue J to Europe is one of the best sweet spots. 50-55K one-way on AF/KLM metal." },
  { id := "fb-us-europe-y", program := "FLYING_BLUE", programName := "Flying Blue",
    originRegions := ["US"], destRegions := ["Europe"],
    cabin := "economy", maxPoints := 22000, typicalCashPrice := 600, expectedCpp := 27/10,
    description := "Flying Blue Y to Europe at 15-22K is solid value, especially on promo." },
  { id := "ac-us-europe-j", program := "AEROPLAN", programName := "Aeroplan",
    originRegions := ["US"], destRegions := ["Europe"],
    cabin := "business", maxPoints := 70000, typicalCashPrice := 5000, expectedCpp := 13/2,
    description := "Aeroplan J to Europe on Star Alliance (Lufthansa, Swiss, Turkish, LOT). 60-70K standard." },
  { id := "ac-us-asia-j", program := "AEROPLAN", programName := "Aeroplan",
    originRegions := ["US"], destRegions := ["Asia"],
    cabin := "business", maxPoints := 75000, typicalCashPrice := 6000, expectedCpp := 15/2,
    description := "Aeroplan 75K J to Asia is ELITE. ANA, EVA, Singapore on Star Alliance metal." },
  { id := "ac-us-middle-east-j", program := "AEROPLAN", programName := "Aeroplan",
    originRegions := ["US"], destRegions := ["Middle East"],
    cabin := "business", maxPoints := 70000, typicalCashPrice := 5500, expectedCpp := 7,
    description := "Aeroplan to Middle East via Turkish J through IST. 70K standard." },
  { id := "vs-us-japan-f", program := "VIRGIN_ATLANTIC", programName := "Virgin Atlantic",
    originRegions := ["US"], destinations := ["NRT", "HND"],
    cabin := "first", maxPoints := 120000, typicalCashPrice := 15000, expectedCpp := 12,
    description := "ANA F booked through Virgin Atlantic — 110-120K RT. The GOAT of award travel." },
  { id := "vs-us-europe-delta-j", program := "VIRGIN_ATLANTIC", programName := "Virgin Atlantic",
    originRegions := ["US"], destRegions := ["Europe"],
    cabin := "business", maxPoints := 50000, typicalCashPrice := 4000, expectedCpp := 15/2,
    description := "Delta One booked via Virgin Atlantic. 50K OW when available." },
  { id := "as-cathay-j", program := "ALASKA", programName := "Alaska Mileage Plan",
    originRegions := ["US"], destRegions := ["Asia"],
    cabin := "business", maxPoints := 50000, typicalCashPrice := 5000, expectedCpp := 9,
    description := "Cathay Pacific J via Alaska — 50K OW is legendary value." },
  { id := "as-jal-j", program := "ALASKA", programName := "Alaska Mileage Plan",
    originRegions := ["US"], destRegions := ["Asia"],
    cabin := "business", maxPoints := 60000, typicalCashPrice := 6000, expectedCpp := 9,
    description := "JAL J via Alaska — 60K OW with no fuel surcharges. Amazing product." },
  { id := "as-emirates-f", program := "ALASKA", programName := "Alaska Mileage Plan",
    originRegions := ["US"], destRegions := ["Middle East"],
    cabin := "first", maxPoints := 115000, typicalCashPrice := 12000, expectedCpp := 10,
    description := "Emirates F via Alaska — 115K OW. One of the best F products in the sky." },
  { id := "ba-short-haul-y", program := "BRITISH_AIRWAYS", programName := "BA Avios",
    originRegions := ["US"],
    cabin := "economy", maxPoints := 7500, typicalCashPrice := 200, expectedCpp := 5/2,
    description := "Avios on AA short-haul (under 1150mi) — 7,500 one-way. NYC-MIA, LAX-SFO, etc." },
  { id := "ba-short-haul-j", program := "BRITISH_AIRWAYS", programName := "BA Avios",
    originRegions := ["US"],
    cabin := "business", maxPoints := 15000, typicalCashPrice := 500, expectedCpp := 3,
    description := "Avios for AA domestic first — 15K OW on routes under 1150mi." },
  { id := "tk-us-ist-j", program := "TURKISH", programName := "Turkish Miles&Smiles",
    originRegions := ["US"], destinations := ["IST"],
    cabin := "business", maxPoints := 45000, typicalCashPrice := 4000, expectedCpp := 8,
    description := "Turkish J to IST — 45K OW. Outstanding product and lounge." },
  { id := "ua-domestic-y", program := "UNITED", programName := "United MileagePlus",
    originRegions := ["US"], destRegions := ["US"],
    cabin := "economy", maxPoints := 12500, typicalCashPrice := 250, expectedCpp := 9/5,
    description := "United saver Y domestic — 10-12.5K OW. Decent for transcontinental." },
  { id := "ek-us-dxb-j", program := "EMIRATES", programName := "Emirates Skywards",
    originRegions := ["US"], destinations := ["DXB"],
    cabin := "business", maxPoints := 72500, typicalCashPrice := 5000, expectedCpp := 13/2,
    description := "Emirates J direct to DXB — 72.5K OW. Game changer when available." },
  { id := "ek-us-dxb-f", program := "EMIRATES", programName := "Emirates Skywards",
    originRegions := ["US"], destinations := ["DXB"],
    cabin := "first", maxPoints := 136000, typicalCashPrice := 12000, expectedCpp := 17/2,
    description := "Emirates F to DXB — the iconic shower suite experience. 136K OW." },
  { id := "qr-us-doha-j", program := "QATAR", programName := "Qatar Privilege Club",
    originRegions := ["US"], destinations := ["DOH"],
    cabin := "business", maxPoints := 70000, typicalCashPrice := 5500, expectedCpp := 7,
    description := "QSuites is the best business class in the sky. 70K OW to DOH." },
  { id := "dl-flash-j", program := "DELTA", programName := "Delta SkyMiles",
    originRegions := ["US"], destRegions := ["Europe"],
    cabin := "business", maxPoints := 80000, typicalCashPrice := 4000, expectedCpp := 9/2,
    description := "Delta One flash sales to Europe — 60-80K when they appear." }
]

/-- The route predicate of `matchSweetSpots`: the four-way `if/else if` chain
over which of the rule's airport/region lists are non-empty. -/
def routeMatches (spot : SweetSpot) (origin destination : String) : Bool :=
  if !spot.origins.isEmpty && !spot.destinations.isEmpty then
    spot.origins.contains origin && spot.destinations.contains destination
  else if !spot.originRegions.isEmpty && !spot.destRegions.isEmpty then
    spot.originRegions.any (fun r => matchesRegion origin r) &&
      spot.destRegions.any (fun r => matchesRegion destination r)
  else if !spot.originRegions.isEmpty && !spot.destinations.isEmpty then
    spot.originRegions.any (fun r => matchesRegion origin r) &&
      spot.destinations.contains destination
  else if !spot.originRegions.isEmpty then
    spot.originRegions.any (fun r => matchesRegion origin r)
  else false

/-- A sweet-spot match as returned by `matchSweetSpots`. -/
structure SweetSpotMatch where
  spot : SweetSpot
  matchScore : ℤ
  pointsSaved : ℚ
  actualCpp : ℚ
  label : String
deriving DecidableEq

/-- Comparator order for `matches.sort((a, b) => b.matchScore - a.matchScore)`. -/
def ssmLe (a b : SweetSpotMatch) : Prop :=
  b.matchScore ≤ a.matchScore

instance ssmLe.decidableRel : DecidableRel ssmLe :=
  fun a b => inferInstanceAs (Decidable (b.matchScore ≤ a.matchScore))

/-- `matchSweetSpots`: all sweet-spot rules matching a fare, scored and sorted
descending by match score. -/
def matchSweetSpots (origin destination program cabin : String) (points : ℚ)
    (cashComparable : Option ℚ) : List SweetSpotMatch :=
  let found := SWEET_SPOTS.filterMap (fun spot =>
    if spot.program ≠ program then none
    else if spot.cabin ≠ cabin then none
    else if !(routeMatches spot origin destination) then none
    else if points > spot.maxPoints then none
    else
      let cashRef : ℚ :=
        match cashComparable with
        | some c => if c ≠ 0 then c else spot.typicalCashPrice
        | none => spot.typicalCashPrice
      let actualCpp : ℚ := if points > 0 then cashRef / (points / 100) else 0
      let pointsSaved := spot.maxPoints - points
      let pctUnderMax := (spot.maxPoints - points) / spot.maxPoints
      let matchScore : ℤ := 70 + round (pctUnderMax * 20) +
        (if actualCpp ≥ spot.expectedCpp then 10 else 0)
      some { spot := spot, matchScore := min 100 matchScore,
             pointsSaved := pointsSaved,
             actualCpp := ((round (actualCpp * 10) : ℤ) : ℚ) / 10,
             label := "🎯 SWEET SPOT: " ++ spot.description.take 60 })
  List.insertionSort ssmLe found

/-- `getSweetSpotsForRoute`: rules relevant to a route (no origin-region-only
fallback here, unlike `routeMatches`). -/
def getSweetSpotsForRoute (origin destination : String) : List SweetSpot :=
  SWEET_SPOTS.filter (fun spot =>
    if !spot.origins.isEmpty && !spot.destinations.isEmpty then
      spot.origins.contains origin && spot.destinations.contains destination
    else if !spot.originRegions.isEmpty && !spot.destRegions.isEmpty then
      spot.originRegions.any (fun r => matchesRegion origin r) &&
        spot.destRegions.any (fun r => matchesRegion destination r)
    else if !spot.originRegions.isEmpty && !spot.destinations.isEmpty then
      spot.originRegions.any (fun r => matchesRegion origin r) &&
        spot.destinations.contains destination
    else false)

/-! ## Value engine (`value-engine.ts`, the second half of the
`transfer-partners.ts` source document) -/

/-- The `type` tag of a `UnifiedFlightResult`. -/
inductive FlightKind
  | award
  | cash
deriving DecidableEq

/-- A `UnifiedFlightResult`, restricted to the fields the value engine,
matcher, resolver and orchestrator logic actually read. `ftype` embeds the
source field `type` (a Lean keyword). Display-only fields (times, airports
chain, equipment, URLs, flight numbers, fare class, currency, seats,
`cppValue`) are omitted. -/
structure Flight where
  id : String
  source : String
  ftype : FlightKind
  origin : String
  destination : String
  operatingAirlines : List String
  stops : ℕ
  cabinClass : String
  points : Option ℚ := none
  pointsProgram : Option String := none
  cashPrice : Option ℚ := none
  taxes : ℚ := 0
  roameScore : Option ℚ := none
deriving DecidableEq

/-- JS truthiness of a nullable number: `none` and `some 0` are falsy. -/
def truthy (x : Option ℚ) : Bool :=
  match x with
  | some v => decide (v ≠ 0)
  | none => false

/-- Stop bucket: `0` for nonstop, `1` for connecting. -/
def stopBucketOf (stops : ℕ) : ℕ :=
  if stops = 0 then 0 else 1

/-- A cash flight that enters the price lookup: `f.type === "cash" && f.cashPrice && f.cashPrice > 0`. -/
def isPricedCash (f : Flight) : Bool :=
  f.ftype == .cash &&
    (match f.cashPrice with
     | some p => decide (p > 0)
     | none => false)

/-- The prices accumulated into the bucket keyed `cabin:stopBucket` by
`buildCashPriceLookup`, in input order. -/
def bucketPrices (flights : List Flight) (cabin : String) (stopBucket : ℕ) : List ℚ :=
  (flights.filter (fun f =>
    isPricedCash f && f.cabinClass == cabin && stopBucketOf f.stops == stopBucket)).filterMap
    (fun f => f.cashPrice)

/-- A `CashPriceBucket`. `minPrice`/`maxPrice` are maintained by the source but
never read downstream and are omitted; `avgPrice` is recomputed as the full
average on every insertion, so the final value is the average of all
accumulated prices. -/
structure CashPriceBucket where
  cabin : String
  stops : ℕ
  prices : List ℚ
  avgPrice : ℚ
deriving DecidableEq

/-- Lookup into the map built by `buildCashPriceLookup`: a key is present iff
at least one priced cash flight matches it, and then holds all matching prices
and their average. (The source builds the `Map` incrementally; only the final
bucket contents are ever read, so the lookup is embedded as the derived
bucket per key.) -/
def cashBucketLookup (flights : List Flight) (cabin : String) (stopBucket : ℕ) :
    Option CashPriceBucket :=
  let ps := bucketPrices flights cabin stopBucket
  if ps.isEmpty then none
  else some { cabin := cabin, stops := stopBucket, prices := ps,
              avgPrice := ps.sum / (ps.length : ℚ) }

/-- Which fallback tier produced a cash comparable. -/
inductive CashSrc
  | exactMatch
  | sameCabin
  | estimated
deriving DecidableEq

/-- Result of `findCashComparable`. -/
structure CashComparable where
  price : ℚ
  src : CashSrc
deriving DecidableEq

/-- The hardcoded `CABIN_ESTIMATES` fallback (`|| 600` for unknown cabins). -/
def CABIN_ESTIMATES (cabin : String) : ℚ :=
  if cabin = "economy" then 600
  else if cabin = "premium_economy" then 1200
  else if cabin = "business" then 4000
  else if cabin = "first" then 8000
  else 600

/-- The tier-1 filter of `findCashComparable`: priced cash fares with the
award's cabin, the award's exact stop count, and an overlapping operating
carrier. -/
def exactCashMatches (award : Flight) (cashFlights : List Flight) : List Flight :=
  cashFlights.filter (fun f =>
    isPricedCash f && f.cabinClass == award.cabinClass &&
      f.stops == award.stops &&
      f.operatingAirlines.any (fun a => award.operatingAirlines.contains a))

/-- `findCashComparable`: exact match (median) → same-cabin bucket (average) →
`anyBucket` chain (the same key again, then `cabin:0`, then `cabin:1`) →
hardcoded estimate. `bucketSrc` is the flight list from which
`buildCashPriceLookup` built the bucket map. A present bucket always has a
non-empty price list, so the source's `bucket.prices.length > 0` test is
absorbed into the lookup. -/
def findCashComparable (award : Flight) (cashFlights : List Flight)
    (bucketSrc : List Flight) : CashComparable :=
  let exactMatches := exactCashMatches award cashFlights
  if !exactMatches.isEmpty then
    let sorted := List.insertionSort (fun a b : ℚ => a ≤ b)
      (exactMatches.filterMap (fun f => f.cashPrice))
    { price := sorted.getD (sorted.length / 2) 0, src := .exactMatch }
  else
    match cashBucketLookup bucketSrc award.cabinClass (stopBucketOf award.stops) with
    | some bucket => { price := ((round bucket.avgPrice : ℤ) : ℚ), src := .sameCabin }
    | none =>
        match (cashBucketLookup bucketSrc award.cabinClass (stopBucketOf award.stops)).orElse
            (fun _ => (cashBucketLookup bucketSrc award.cabinClass 0).orElse
              (fun _ => cashBucketLookup bucketSrc award.cabinClass 1)) with
        | some anyBucket =>
            { price := ((round anyBucket.avgPrice : ℤ) : ℚ), src := .sameCabin }
        | none => { price := CABIN_ESTIMATES award.cabinClass, src := .estimated }

/-- A cents-per-point rating tier. -/
inductive CppRating
  | exceptional
  | great
  | good
  | fair
  | poor
deriving DecidableEq

/-- One row of the `CPP_THRESHOLDS` table. -/
structure CppThresholds where
  exceptional : ℚ
  great : ℚ
  good : ℚ
  fair : ℚ
deriving DecidableEq

/-- The cabin-keyed `CPP_THRESHOLDS` table. -/
def CPP_THRESHOLDS (cabin : String) : Option CppThresholds :=
  if cabin = "economy" then some ⟨5/2, 9/5, 7/5, 1⟩
  else if cabin = "premium_economy" then some ⟨7/2, 5/2, 9/5, 6/5⟩
  else if cabin = "business" then some ⟨5, 7/2, 5/2, 3/2⟩
  else if cabin = "first" then some ⟨8, 5, 7/2, 2⟩
  else none

/-- `rateCpp`: rate a cents-per-point value against the cabin's thresholds,
defaulting to the economy row for unknown cabins. -/
def rateCpp (cpp : ℚ) (cabin : String) : CppRating :=
  let t := (CPP_THRESHOLDS cabin).getD ⟨5/2, 9/5, 7/5, 1⟩
  if cpp ≥ t.exceptional then .exceptional
  else if cpp ≥ t.great then .great
  else if cpp ≥ t.good then .good
  else if cpp ≥ t.fair then .fair
  else .poor

/-- The `cppScores` record inside `calculateValueScore` (`|| 8` can never
fire: every rating is a key). -/
def cppScoreOf : CppRating → ℤ
  | .exceptional => 40
  | .great => 32
  | .good => 24
  | .fair => 16
  | .poor => 8

/-- `calculateValueScore`: composite 0–100 score; cash fares are rescored by
price rank within their cabin, capped at 50. -/
def calculateValueScore (flight : Flight) (realCpp : Option ℚ)
    (cppRating : Option CppRating) (sweetSpot : Option SweetSpotMatch)
    (affordable : Bool) (roameScore : Option ℚ) (allFlights : List Flight) : ℤ :=
  let score : ℤ := 0
  let score := score +
    (match realCpp, cppRating with
     | some _, some r => cppScoreOf r
     | _, _ => 0)
  let score := score +
    (match sweetSpot with
     | some ss => round ((ss.matchScore : ℚ) * (2/10))
     | none => 0)
  let score := score + (if affordable then 15 else 5)
  let score := score +
    (match roameScore with
     | some r =>
         if r ≠ 0 then round (min (r / 100) 1 * 15)
         else if flight.cabinClass = "first" then 13
         else if flight.cabinClass = "business" then 10
         else 0
     | none =>
         if flight.cabinClass = "first" then 13
         else if flight.cabinClass = "business" then 10
         else 0)
  let score := score +
    (if flight.stops = 0 then 10 else if flight.stops = 1 then 6 else 2)
  let score :=
    if flight.ftype = .cash then
      let cashFlightsInCabin := allFlights.filter (fun f =>
        f.ftype == .cash && f.cabinClass == flight.cabinClass && truthy f.cashPrice)
      if !cashFlightsInCabin.isEmpty then
        let prices := List.insertionSort (fun a b : ℚ => a ≤ b)
          (cashFlightsInCabin.filterMap (fun f => f.cashPrice))
        let idx : ℤ :=
          match flight.cashPrice with
          | some p => jsIndexOf p prices
          | none => -1
        let rank : ℚ := (idx : ℚ) / (prices.length : ℚ)
        round ((1 - rank) * 50)
      else score
    else score
  min 100 (max 0 score)

/-- The real cents-per-point computation applied to each award fare in
`scoreFlights`:
`cashComparable > 0 ? Math.round(((cashComparable - taxes) / (points / 100)) * 10) / 10 : null`. -/
def realCppOf (cashComparable taxes points : ℚ) : Option ℚ :=
  if cashComparable > 0 then
    some (((round (((cashComparable - taxes) / (points / 100)) * 10) : ℤ) : ℚ) / 10)
  else none

/-- A `ValueScoredFlight`: the underlying flight plus the value-engine fields.
The display-only `affordDetails` string is omitted. -/
structure ValueScoredFlight where
  base : Flight
  realCpp : Option ℚ := none
  cppRating : Option CppRating := none
  cashComparable : Option ℚ := none
  cashSource : Option CashSrc := none
  sweetSpotMatch : Option SweetSpotMatch := none
  fundingPath : Option FundingPath := none
  canAfford : Bool := true
  valueScore : ℤ := 0
deriving DecidableEq

/-- A `ValueInsight`, reduced to its semantic fields: kind, priority, and a
reference to the rule or flight the insight points at (title/detail/URL
display strings are omitted). -/
structure ValueInsight where
  itype : String
  priority : String
  ref : Option String := none
deriving DecidableEq

/-- Order for `scored/hits.sort((a, b) => b.valueScore - a.valueScore)`. -/
def vsfValueScoreLe (a b : ValueScoredFlight) : Prop :=
  b.valueScore ≤ a.valueScore

instance vsfValueScoreLe.decidableRel : DecidableRel vsfValueScoreLe :=
  fun a b => inferInstanceAs (Decidable (b.valueScore ≤ a.valueScore))

/-- Order for `.sort((a, b) => (b.realCpp || 0) - (a.realCpp || 0))`. -/
def vsfRealCppLe (a b : ValueScoredFlight) : Prop :=
  b.realCpp.getD 0 ≤ a.realCpp.getD 0

instance vsfRealCppLe.decidableRel : DecidableRel vsfRealCppLe :=
  fun a b => inferInstanceAs (Decidable (b.realCpp.getD 0 ≤ a.realCpp.getD 0))

/-- The `a.cashPrice || Infinity` sort key (`0` and `null` both map to `∞`). -/
def jsPriceKey (f : ValueScoredFlight) : WithTop ℚ :=
  match f.base.cashPrice with
  | some p => if p ≠ 0 then (p : WithTop ℚ) else ⊤
  | none => ⊤

/-- Order for `.sort((a, b) => (a.cashPrice || Infinity) - (b.cashPrice || Infinity))`. -/
def vsfPriceLe (a b : ValueScoredFlight) : Prop :=
  jsPriceKey a ≤ jsPriceKey b

instance vsfPriceLe.decidableRel : DecidableRel vsfPriceLe :=
  fun a b => inferInstanceAs (Decidable (jsPriceKey a ≤ jsPriceKey b))

/-- `priorityOrder` of the insight sort. -/
def priorityOrder (p : String) : ℤ :=
  if p = "high" then 0 else if p = "medium" then 1 else 2

/-- Order for `insights.sort((a, b) => priorityOrder[a.priority] - priorityOrder[b.priority])`. -/
def insightLe (a b : ValueInsight) : Prop :=
  priorityOrder a.priority ≤ priorityOrder b.priority

instance insightLe.decidableRel : DecidableRel insightLe :=
  fun a b => inferInstanceAs (Decidable (priorityOrder a.priority ≤ priorityOrder b.priority))

/-- The per-flight body of the `flights.map` closure in `scoreFlights`
(`flights`/`cashFlights`/`balances` are its captured variables). -/
def scoreOneFlight (flights cashFlights : List Flight) (balances : List Balance)
    (flight : Flight) : ValueScoredFlight :=
  let awardPts : Option ℚ :=
    match flight.ftype, flight.points with
    | .award, some p => if p > 0 then some p else none
    | _, _ => none
  match awardPts with
  | some p =>
      let comparable := findCashComparable flight cashFlights flights
      let cashComparable := comparable.price
      let realCpp := realCppOf cashComparable flight.taxes p
      let cppRating := realCpp.map (fun c => rateCpp c flight.cabinClass)
      let sweetSpots := matchSweetSpots flight.origin flight.destination
        (flight.pointsProgram.getD "") flight.cabinClass p (some cashComparable)
      let sweetSpotMatch := sweetSpots.head?
      let afford := canAfford (flight.pointsProgram.getD "") p balances
      let paths := findFundingPaths (flight.pointsProgram.getD "") p balances
      { base := flight, realCpp := realCpp, cppRating := cppRating,
        cashComparable := some cashComparable, cashSource := some comparable.src,
        sweetSpotMatch := sweetSpotMatch, fundingPath := paths.head?,
        canAfford := afford.1,
        valueScore := calculateValueScore flight realCpp cppRating sweetSpotMatch
          afford.1 flight.roameScore flights }
  | none =>
      { base := flight,
        valueScore := calculateValueScore flight none none none true
          flight.roameScore flights }

/-- `scoreFlights`: score every flight and derive the insight list. -/
def scoreFlights (flights : List Flight) (balances : List Balance)
    (origin destination : String) : List ValueScoredFlight × List ValueInsight :=
  let cashFlights := flights.filter (fun f => f.ftype == .cash)
  let scored := flights.map (scoreOneFlight flights cashFlights balances)
  let sweetSpotHits := scored.filter (fun f => f.sweetSpotMatch.isSome)
  let insights1 : List ValueInsight :=
    match (List.insertionSort vsfValueScoreLe sweetSpotHits).head? with
    | some best =>
        [{ itype := "sweet-spot-available", priority := "high",
           ref := best.sweetSpotMatch.map (fun m => m.spot.id) }]
    | none => []
  let routeSpots := getSweetSpotsForRoute origin destination
  let unmatchedSpots := routeSpots.filter (fun spot =>
    !(sweetSpotHits.any (fun f =>
      match f.sweetSpotMatch with
      | some m => m.spot.id == spot.id
      | none => false)))
  let insights2 : List ValueInsight := (unmatchedSpots.take 3).map (fun spot =>
    { itype := "route-tip", priority := "low", ref := some spot.id })
  let bestAward := (List.insertionSort vsfRealCppLe (scored.filter (fun f =>
    f.base.ftype == .award && f.realCpp.isSome))).head?
  let cheapestCash := (List.insertionSort vsfPriceLe (scored.filter (fun f =>
    f.base.ftype == .cash && truthy f.base.cashPrice))).head?
  let insights3 : List ValueInsight :=
    match bestAward, cheapestCash with
    | some ba, some _ =>
        match ba.realCpp with
        | some c => if c < 1 then [{ itype := "cash-wins", priority := "high" }] else []
        | none => []
    | _, _ => []
  let exceptionals := scored.filter (fun f =>
    f.cppRating == some .exceptional && f.canAfford)
  let insights4 : List ValueInsight :=
    match (List.insertionSort vsfRealCppLe exceptionals).head? with
    | some best =>
        [{ itype := "book-now", priority := "high", ref := some best.base.id }]
    | none => []
  let insights := insights1 ++ insights2 ++ insights3 ++ insights4
  (scored, List.insertionSort insightLe insights)

/-! ## Roame job poller (`pollResults` in the Roame scraper)

Timing model: the poll request itself is instantaneous, so the `i`-th poll
is issued at elapsed time `i * 3000` ms (the hardcoded 3-second sleep runs
after every poll that does not return). The `while (Date.now() - start <
maxWaitMs)` guard is therefore `i * 3000 < maxWaitMs`. `timeMs` and `finish`
are ghost observations of when and through which return site the loop ended;
the source returns only `fares`/`percentCompleted`. -/

/-- One `pingSearchResults` response, with `α` the fare payload type. -/
structure PollResponse (α : Type) where
  percentCompleted : ℚ
  fares : List α

/-- Which return site of `pollResults` produced the result (ghost). -/
inductive PollFinish
  | completed
  | stalled
  | timedOut
deriving DecidableEq

/-- Result of the poll loop, with ghost time/return-site fields. -/
structure PollReturn (α : Type) where
  fares : List α
  percentCompleted : ℚ
  timeMs : ℕ
  finish : PollFinish

/-- The poll loop of `pollResults`. State: poll index `i`, `lastPct`,
`lastFareCount`, `staleCount`. -/
def pollGo {α : Type} (resp : ℕ → PollResponse α) (maxWaitMs : ℕ)
    (i : ℕ) (lastPct : ℚ) (lastFareCount : ℕ) (staleCount : ℕ) : PollReturn α :=
  if h : i * 3000 < maxWaitMs then
    let r := resp i
    if r.percentCompleted ≥ 100 then
      { fares := r.fares, percentCompleted := r.percentCompleted,
        timeMs := i * 3000, finish := .completed }
    else if r.fares.length = lastFareCount ∧ r.percentCompleted = lastPct then
      if staleCount + 1 ≥ 4 then
        { fares := r.fares, percentCompleted := r.percentCompleted,
          timeMs := i * 3000, finish := .stalled }
      else
        pollGo resp maxWaitMs (i + 1) r.percentCompleted r.fares.length (staleCount + 1)
    else
      pollGo resp maxWaitMs (i + 1) r.percentCompleted r.fares.length 0
  else
    { fares := [], percentCompleted := lastPct, timeMs := i * 3000, finish := .timedOut }
termination_by maxWaitMs - i * 3000
decreasing_by all_goals omega

/-- `pollResults` (fare payload abstracted): poll until 100 %, four
consecutive no-progress polls, or the deadline. -/
def pollResults {α : Type} (resp : ℕ → PollResponse α) (maxWaitMs : ℕ := 90000) :
    PollReturn α :=
  pollGo resp maxWaitMs 0 0 0 0

/-! ## SerpAPI usage limiter and adapter (`checkSerpApiUsage`,
`incrementSerpApiUsage`, `searchSerpApiGoogle`) -/

def MONTHLY_LIMIT : ℕ := 95

def WARN_AT : ℕ := 80

/-- The persisted `serpapi-usage.json` counter (fields the logic reads). -/
structure SerpApiUsage where
  month : String
  searches : ℕ
deriving DecidableEq

/-- Diagnostics the adapter emits on its side channel (`console.warn`). -/
inductive SerpWarning
  | apiKeyMissing
  | quotaReached
  | usageHigh
  | httpError
  | classFailed
deriving DecidableEq

/-- Result of `checkSerpApiUsage`: the `{allowed, used}` return value, the
file state after the check (a month rollover resets and rewrites it), and
any warnings printed. `persisted = none` models an unreadable/absent file
(the `catch {}` default). -/
structure SerpCheck where
  allowed : Bool
  used : ℕ
  persisted : Option SerpApiUsage
  warnings : List SerpWarning
deriving DecidableEq

def checkSerpApiUsage (persisted : Option SerpApiUsage) (currentMonth : String) :
    SerpCheck :=
  let usage := persisted.getD { month := "", searches := 0 }
  let st :=
    if usage.month ≠ currentMonth then
      let fresh : SerpApiUsage := { month := currentMonth, searches := 0 }
      (fresh, some fresh)
    else (usage, persisted)
  let usage := st.1
  if usage.searches ≥ MONTHLY_LIMIT then
    { allowed := false, used := usage.searches, persisted := st.2,
      warnings := [.quotaReached] }
  else if usage.searches ≥ WARN_AT then
    { allowed := true, used := usage.searches, persisted := st.2,
      warnings := [.usageHigh] }
  else
    { allowed := true, used := usage.searches, persisted := st.2, warnings := [] }

def incrementSerpApiUsage (persisted : Option SerpApiUsage) (currentMonth : String) :
    SerpApiUsage :=
  let usage := persisted.getD { month := "", searches := 0 }
  let usage := if usage.month ≠ currentMonth then { month := currentMonth, searches := 0 } else usage
  { month := usage.month, searches := usage.searches + 1 }

/-- Outcome of one SerpAPI fetch. The per-itinerary JSON → flight-record
conversion is a field-by-field reshaping at the parse boundary; a successful
fetch is embedded as the converted flight list it yields. -/
inductive FetchOutcome
  | ok (flights : List Flight)
  | httpError
  | threw

/-- `travel_class` values searched for a search class
(`config.searchClass === "both" ? [1, 2] : [cabinMap[config.searchClass] || 1]`). -/
def serpClassesToSearch (searchClass : String) : List ℕ :=
  if searchClass = "both" then [1, 2]
  else if searchClass = "ECON" then [1]
  else if searchClass = "PREM" then [2]
  else [1]

/-- Result of `searchSerpApiGoogle`, with the ghost `networkCalls` counter
(number of `fetch` calls issued) and the final persisted usage state. -/
structure SerpResult where
  flights : List Flight
  completion : ℚ
  networkCalls : ℕ
  persisted : Option SerpApiUsage
  warnings : List SerpWarning

/-- `searchSerpApiGoogle`: missing key → skip with a warning; quota check
before anything else; otherwise one usage increment + one fetch per travel
class, each class's failure caught and logged. `fetch n` is the outcome of
the `n`-th network call. -/
def searchSerpApiGoogle (apiKey : Option String) (persisted : Option SerpApiUsage)
    (currentMonth : String) (searchClass : String) (fetch : ℕ → FetchOutcome) :
    SerpResult :=
  match apiKey with
  | none =>
      { flights := [], completion := 0, networkCalls := 0, persisted := persisted,
        warnings := [.apiKeyMissing] }
  | some _ =>
      let check := checkSerpApiUsage persisted currentMonth
      if !check.allowed then
        { flights := [], completion := 0, networkCalls := 0,
          persisted := check.persisted, warnings := check.warnings }
      else
        let final := (serpClassesToSearch searchClass).foldl
          (fun (st : Option SerpApiUsage × List Flight × ℕ × List SerpWarning) _cls =>
            let p := some (incrementSerpApiUsage st.1 currentMonth)
            match fetch st.2.2.1 with
            | .ok newFlights => (p, st.2.1 ++ newFlights, st.2.2.1 + 1, st.2.2.2)
            | .httpError => (p, st.2.1, st.2.2.1 + 1, st.2.2.2 ++ [.httpError])
            | .threw => (p, st.2.1, st.2.2.1 + 1, st.2.2.2 ++ [.classFailed]))
          (check.persisted, [], 0, check.warnings)
        { flights := final.2.1,
          completion := if final.2.1.length > 0 then 100 else 0,
          networkCalls := final.2.2.1, persisted := final.1,
          warnings := final.2.2.2 }

/-! ## Top-level orchestrator (`runSearch`)

The three source adapters run concurrently under `Promise.allSettled`; each
promise appends its flights and records its completion on fulfilment, and its
`.catch` records completion `0` on rejection, so a settled source is either
`ok` (its returned flights and completion) or `failed`. Settlement order is
nondeterministic; the embedding fixes the declaration order of the sources —
every property verified about the output is insensitive to that order. -/

/-- The search configuration fields the orchestration logic branches on
(dates, output path and verbosity flags are passed through or display-only). -/
structure SearchConfig where
  origin : String
  destination : String
  sources : List String
deriving DecidableEq

/-- What one source adapter settled with. -/
structure AdapterReturn where
  flights : List Flight
  completion : ℚ
deriving DecidableEq

/-- A settled adapter promise: fulfilled with a result, or rejected. -/
inductive Settlement
  | ok (r : AdapterReturn)
  | failed
deriving DecidableEq

/-- The source keys wired into `runSearch`, in declaration order. -/
def sourceKeys : List String := ["roame", "google", "hidden-city"]

/-- The sources for which `runSearch` launches an adapter. -/
def activeSources (config : SearchConfig) : List String :=
  sourceKeys.filter (fun s => config.sources.contains s)

/-- A recommendation, reduced to its semantic fields: rank, the chosen
flight, the cpp value surfaced, and the badge (title/subtitle/details
display strings are omitted). -/
structure Recommendation where
  rank : ℕ
  flightId : String
  cppValue : Option ℚ := none
  badgeText : String
deriving DecidableEq

/-- `generateRecommendations` (the `part_008` version; its `balances` and
`config` parameters are never read). -/
def generateRecommendations (flights : List ValueScoredFlight) : List Recommendation :=
  let bestValueAwards := List.insertionSort vsfRealCppLe (flights.filter (fun f =>
    f.base.ftype == .award &&
      (match f.realCpp with
       | some c => decide (c > 0)
       | none => false) &&
      f.canAfford))
  let rec1 :=
    match bestValueAwards.head? with
    | some best =>
        [{ rank := 1, flightId := best.base.id, cppValue := best.realCpp,
           badgeText := "#1 BEST VALUE" }]
    | none => []
  let premiumFlights := List.insertionSort vsfValueScoreLe (flights.filter (fun f =>
    f.base.ftype == .award &&
      (f.base.cabinClass == "business" || f.base.cabinClass == "first") &&
      f.canAfford))
  let alreadyUsed := (bestValueAwards.head?).map (fun f => f.base.id)
  let bestPremium := premiumFlights.find? (fun f => !(some f.base.id == alreadyUsed))
  let rec2 :=
    match bestPremium with
    | some bp =>
        [{ rank := 2, flightId := bp.base.id,
           cppValue := if truthy bp.realCpp then bp.realCpp else none,
           badgeText := "#2 BEST PRODUCT" }]
    | none => []
  let cashFlights := List.insertionSort vsfPriceLe (flights.filter (fun f =>
    f.base.ftype == .cash &&
      (match f.base.cashPrice with
       | some p => decide (p > 0)
       | none => false)))
  let rec3 :=
    match cashFlights.head? with
    | some best =>
        let bestAwardCpp : ℚ :=
          match bestValueAwards.head? with
          | some f => f.realCpp.getD 0
          | none => 0
        let cashWins := bestAwardCpp < 3/2
        [{ rank := 3, flightId := best.base.id, cppValue := none,
           badgeText := if cashWins then "#3 CASH WINS" else "#3 SAVE POINTS" }]
    | none => []
  rec1 ++ rec2 ++ rec3

/-- `generateWarnings`. (The Alaska warning's interpolated balance figure is
dropped from the string; the triggering condition is embedded exactly.) -/
def generateWarnings (balances : List Balance) : List String :=
  let warnings := ["⚠️ Chase UR → Emirates Skywards transfers ENDED Oct 2025",
                   "⚠️ Virgin Atlantic does NOT book Emirates flights"]
  match balances.find? (fun b => b.programKey == "ALASKA") with
  | some alaska =>
      if alaska.balance < 100000 then
        warnings ++ ["⚠️ Alaska balance low — enough for ~1 business OW or 1 economy RT"]
      else warnings
  | none => warnings

/-- One entry of `routeSweetSpots` in the dashboard output. -/
structure RouteSpotInfo where
  program : String
  cabin : String
  maxPoints : ℚ
  description : String
deriving DecidableEq

/-- The structurally complete search response (`meta` timestamps/dates are
pass-through display fields and omitted). -/
structure DashboardResults where
  sources : List String
  completionPct : List (String × ℚ)
  balances : List Balance
  flights : List ValueScoredFlight
  recommendations : List Recommendation
  insights : List ValueInsight
  routeSweetSpots : List RouteSpotInfo
  warnings : List String

/-- `runSearch`: merge the settled adapters' flights, record per-source
completion, run the value engine, sort by value score, and assemble the
response. A total function: no settlement combination can make it throw. -/
def runSearch (config : SearchConfig) (balances : List Balance)
    (settle : String → Settlement) : DashboardResults :=
  let active := activeSources config
  let completionPct := active.map (fun s =>
    (s, match settle s with
        | .ok r => r.completion
        | .failed => 0))
  let allFlights := active.flatMap (fun s =>
    match settle s with
    | .ok r => r.flights
    | .failed => [])
  let se := scoreFlights allFlights balances config.origin config.destination
  let sortedScored := List.insertionSort vsfValueScoreLe se.1
  let routeSpots := getSweetSpotsForRoute config.origin config.destination
  { sources := config.sources,
    completionPct := completionPct,
    balances := balances,
    flights := sortedScored,
    recommendations := generateRecommendations sortedScored,
    insights := se.2,
    routeSweetSpots := routeSpots.map (fun s =>
      { program := s.programName, cabin := s.cabin, maxPoints := s.maxPoints,
        description := s.description }),
    warnings := generateWarnings balances }

/-! ## Helper lemmas -/

/-- `round` on `ℚ` is monotone. -/
theorem rat_round_mono {x y : ℚ} (h : x ≤ y) : round x ≤ round y := by
  rw [round_eq, round_eq]
  exact Int.floor_mono (by linarith)

/-- The value produced by `realCppOf` under a positive comparable. -/
theorem realCppOf_pos (c t p : ℚ) (hc : 0 < c) :
    realCppOf c t p =
      some (((round (((c - t) / (p / 100)) * 10) : ℤ) : ℚ) / 10) := by
  unfold realCppOf
  rw [if_pos hc]

/-- Rounding to one decimal moves a rational by at most `1/20`. -/
theorem round_tenth_close (x : ℚ) :
    |((round (x * 10) : ℤ) : ℚ) / 10 - x| ≤ 1 / 20 := by
  have h := abs_sub_round (x * 10)
  have hrw : ((round (x * 10) : ℤ) : ℚ) / 10 - x =
      -((x * 10 - ((round (x * 10) : ℤ) : ℚ)) / 10) := by ring
  rw [hrw, abs_neg, abs_div]
  have h10 : |(10 : ℚ)| = 10 := by norm_num
  rw [h10]
  linarith

/-- A spec-side restatement of the rating thresholds: rate a yield `y`
against explicit cutoffs `e ≥ g ≥ go ≥ fa` as the spec's table lists them. -/
def ratingPerSpecThresholds (e g go fa y : ℚ) : CppRating :=
  if e ≤ y then .exceptional
  else if g ≤ y then .great
  else if go ≤ y then .good
  else if fa ≤ y then .fair
  else .poor

/-! ## C3 — real yield and rating -/

/-- C3 (counterexample): at the spec's own example (cashComparable $4000,
taxes $120, points 45,000) the computed yield is `8.6`, not the exact
`(4000 − 120)/(45000/100) = 8.6222…` the claim states. -/
theorem realCpp_spec_example_not_exact :
    realCppOf 4000 120 45000 = some (43/5) ∧
    realCppOf 4000 120 45000 ≠ some (((4000 : ℚ) - 120) / (45000 / 100)) := by
  constructor
  · rw [realCppOf_pos 4000 120 45000 (by norm_num)]
    norm_num [round_eq]
  · rw [realCppOf_pos 4000 120 45000 (by norm_num)]
    norm_num [round_eq]

/-- C3 (amended): for every award fare with `points > 0` and a positive
resolved cash comparable, the computed real yield is
`(cashComparable − taxes)/(points/100)` rounded to the nearest tenth of a
cent (so within `1/20` of the exact value); ratings are assigned from the
cabin-specific threshold table exactly as the spec lists it; and the
business-cabin example (points 45,000, comparable $4,000, taxes $120)
yields `8.6 ¢/pt`, rated exceptional. -/
theorem realCpp_rounding_and_rating :
    (∀ c t p : ℚ, 0 < c →
      ∃ y, realCppOf c t p = some y ∧ |y - (c - t) / (p / 100)| ≤ 1/20) ∧
    (∀ y : ℚ,
      rateCpp y "economy" = ratingPerSpecThresholds (5/2) (9/5) (7/5) 1 y ∧
      rateCpp y "premium_economy" = ratingPerSpecThresholds (7/2) (5/2) (9/5) (6/5) y ∧
      rateCpp y "business" = ratingPerSpecThresholds 5 (7/2) (5/2) (3/2) y ∧
      rateCpp y "first" = ratingPerSpecThresholds 8 5 (7/2) 2 y) ∧
    realCppOf 4000 120 45000 = some (43/5) ∧
    rateCpp (43/5) "business" = .exceptional := by
  refine ⟨?_, ?_, ?_, ?_⟩
  · intro c t p hc
    refine ⟨_, realCppOf_pos c t p hc, round_tenth_close _⟩
  · intro y
    refine ⟨?_, ?_, ?_, ?_⟩ <;>
      simp [rateCpp, ratingPerSpecThresholds, CPP_THRESHOLDS, ge_iff_le]
  · rw [realCppOf_pos 4000 120 45000 (by norm_num)]
    norm_num [round_eq]
  · simp [rateCpp, CPP_THRESHOLDS]
    norm_num

/-- C3 (witness): the amended theorem applied at the spec's example inputs. -/
theorem realCpp_rounding_and_rating_witness :
    ∃ y, realCppOf 4000 120 45000 = some y ∧
      |y - ((4000 : ℚ) - 120) / (45000 / 100)| ≤ 1/20 :=
  realCpp_rounding_and_rating.1 4000 120 45000 (by norm_num)

/-! ## C9 — monotonicity of the real yield -/

/-- C9 (counterexample): with taxes above the cash comparable
(cashComparable $100, taxes $200), raising points from 10,000 to 20,000
raises the computed yield from −1 ¢/pt to −0.5 ¢/pt, so the yield is not
monotonically decreasing in points. -/
theorem realCpp_not_antitone_in_points :
    realCppOf 100 200 10000 = some (-1) ∧
    realCppOf 100 200 20000 = some (-(1/2)) ∧
    ¬ ((-(1/2) : ℚ) ≤ -1) := by
  refine ⟨?_, ?_, by norm_num⟩
  · rw [realCppOf_pos 100 200 10000 (by norm_num)]
    norm_num [round_eq]
  · rw [realCppOf_pos 100 200 20000 (by norm_num)]
    norm_num [round_eq]

/-- C9 (amended): holding taxes and points fixed (points > 0), the computed
real yield is monotonically increasing in the cash comparable; and holding
taxes and the comparable fixed, it is monotonically decreasing in points
(points > 0) provided `taxes ≤ cashComparable` — when taxes exceed the
comparable the yield is negative and increases with points instead. -/
theorem realCpp_monotonicity :
    (∀ t p c₁ c₂ y₁ y₂ : ℚ, 0 < p → 0 < c₁ → c₁ ≤ c₂ →
      realCppOf c₁ t p = some y₁ → realCppOf c₂ t p = some y₂ → y₁ ≤ y₂) ∧
    (∀ c t p₁ p₂ y₁ y₂ : ℚ, 0 < c → t ≤ c → 0 < p₁ → p₁ ≤ p₂ →
      realCppOf c t p₁ = some y₁ → realCppOf c t p₂ = some y₂ → y₂ ≤ y₁) := by
  constructor
  · intro t p c₁ c₂ y₁ y₂ hp hc₁ hcc h₁ h₂
    rw [realCppOf_pos c₁ t p hc₁] at h₁
    rw [realCppOf_pos c₂ t p (lt_of_lt_of_le hc₁ hcc)] at h₂
    obtain rfl := Option.some_injective _ h₁.symm
    obtain rfl := Option.some_injective _ h₂.symm
    have hd : (0 : ℚ) < p / 100 := by positivity
    have hmono : ((c₁ - t) / (p / 100)) * 10 ≤ ((c₂ - t) / (p / 100)) * 10 := by
      have : (c₁ - t) / (p / 100) ≤ (c₂ - t) / (p / 100) :=
        (div_le_div_iff_of_pos_right hd).mpr (by linarith)
      linarith
    have hr := rat_round_mono hmono
    have : ((round (((c₁ - t) / (p / 100)) * 10) : ℤ) : ℚ) ≤
        ((round (((c₂ - t) / (p / 100)) * 10) : ℤ) : ℚ) := by exact_mod_cast hr
    linarith
  · intro c t p₁ p₂ y₁ y₂ hc ht hp₁ hpp h₁ h₂
    rw [realCppOf_pos c t p₁ hc] at h₁
    rw [realCppOf_pos c t p₂ hc] at h₂
    obtain rfl := Option.some_injective _ h₁.symm
    obtain rfl := Option.some_injective _ h₂.symm
    have hp₂ : (0 : ℚ) < p₂ := lt_of_lt_of_le hp₁ hpp
    have hd₁ : (0 : ℚ) < p₁ / 100 := by positivity
    have hmono : ((c - t) / (p₂ / 100)) * 10 ≤ ((c - t) / (p₁ / 100)) * 10 := by
      have : (c - t) / (p₂ / 100) ≤ (c - t) / (p₁ / 100) :=
        div_le_div_of_nonneg_left (by linarith) hd₁ (by linarith)
      linarith
    have hr := rat_round_mono hmono
    have : ((round (((c - t) / (p₂ / 100)) * 10) : ℤ) : ℚ) ≤
        ((round (((c - t) / (p₁ / 100)) * 10) : ℤ) : ℚ) := by exact_mod_cast hr
    linarith

/-- C9 (witness): the amended theorem at concrete inputs — comparable rising
$3000 → $4000 at 50,000 points, and points rising 50,000 → 60,000 at a $4000
comparable with $100 taxes. -/
theorem realCpp_monotonicity_witness :
    (∀ y₁ y₂ : ℚ, realCppOf 3000 100 50000 = some y₁ →
      realCppOf 4000 100 50000 = some y₂ → y₁ ≤ y₂) ∧
    (∀ y₁ y₂ : ℚ, realCppOf 4000 100 50000 = some y₁ →
      realCppOf 4000 100 60000 = some y₂ → y₂ ≤ y₁) :=
  ⟨fun y₁ y₂ h₁ h₂ => realCpp_monotonicity.1 100 50000 3000 4000 y₁ y₂
      (by norm_num) (by norm_num) (by norm_num) h₁ h₂,
   fun y₁ y₂ h₁ h₂ => realCpp_monotonicity.2 4000 100 50000 60000 y₁ y₂
      (by norm_num) (by norm_num) (by norm_num) (by norm_num) h₁ h₂⟩

/-! ## C4 — cash-comparable fallback tiers -/

/-- An award fare used in concrete checks: business, nonstop, 45,000 points. -/
def exAwardBusiness : Flight :=
  { id := "a1", source := "roame", ftype := .award, origin := "LAX",
    destination := "DXB", operatingAirlines := ["Emirates"], stops := 0,
    cabinClass := "business", points := some 45000,
    pointsProgram := some "EMIRATES", taxes := 120 }

/-- A priced economy cash fare used in concrete checks. -/
def exEconCash : Flight :=
  { id := "c1", source := "google", ftype := .cash, origin := "LAX",
    destination := "DXB", operatingAirlines := ["Delta"], stops := 0,
    cabinClass := "economy", cashPrice := some 500 }

/-- A priced one-stop business cash fare used in concrete checks. -/
def exBusinessCashOneStop : Flight :=
  { id := "c2", source := "google", ftype := .cash, origin := "LAX",
    destination := "DXB", operatingAirlines := ["Delta"], stops := 1,
    cabinClass := "business", cashPrice := some 3000 }

/-- C4 (counterexample): search-derived cash data exists (a priced economy
cash fare), yet the business award falls through to the hardcoded per-cabin
constant ($4000, tier `estimated`) because no *business* cash data exists —
refuting "the hardcoded per-cabin constant only if no search-derived cash
data exists at all". -/
theorem findCashComparable_estimate_despite_cash_data :
    findCashComparable exAwardBusiness [exEconCash] [exAwardBusiness, exEconCash] =
      { price := 4000, src := .estimated } ∧
    isPricedCash exEconCash = true := by
  constructor
  · decide
  · decide

/-- C4 (amended): `findCashComparable` applies the ordered fallback — exact
match (same cabin, same stop count, overlapping carrier; the price is the
middle element, at index `⌊n/2⌋`, of the ascending ordering of the matching
prices, i.e. their median), else the same-cabin same-stop-bucket average,
else the same cabin's other stop bucket's average (still recorded
`same-cabin`), and the hardcoded per-cabin constant exactly when no bucket
for the award's cabin exists in either stop bucket (even if cash data for
other cabins exists); the producing tier is recorded as `exact-match`,
`same-cabin`, or `estimated`. -/
theorem findCashComparable_tiers (award : Flight) (cashFlights bucketSrc : List Flight) :
    (exactCashMatches award cashFlights ≠ [] →
      ∃ sorted : List ℚ,
        sorted.Perm
          ((exactCashMatches award cashFlights).filterMap (fun f => f.cashPrice)) ∧
        sorted.Sorted (· ≤ ·) ∧
        findCashComparable award cashFlights bucketSrc =
          { price := sorted.getD (sorted.length / 2) 0, src := .exactMatch }) ∧
    (exactCashMatches award cashFlights = [] →
      ∀ b, cashBucketLookup bucketSrc award.cabinClass (stopBucketOf award.stops) = some b →
        findCashComparable award cashFlights bucketSrc =
          { price := ((round b.avgPrice : ℤ) : ℚ), src := .sameCabin }) ∧
    (exactCashMatches award cashFlights = [] →
      cashBucketLookup bucketSrc award.cabinClass (stopBucketOf award.stops) = none →
      ∀ b, cashBucketLookup bucketSrc award.cabinClass (1 - stopBucketOf award.stops) = some b →
        findCashComparable award cashFlights bucketSrc =
          { price := ((round b.avgPrice : ℤ) : ℚ), src := .sameCabin }) ∧
    (exactCashMatches award cashFlights = [] →
      cashBucketLookup bucketSrc award.cabinClass 0 = none →
      cashBucketLookup bucketSrc award.cabinClass 1 = none →
        findCashComparable award cashFlights bucketSrc =
          { price := CABIN_ESTIMATES award.cabinClass, src := .estimated }) := by
  refine ⟨?_, ?_, ?_, ?_⟩
  · intro hne
    unfold findCashComparable
    rw [if_pos (by simpa using hne)]
    exact ⟨List.insertionSort (fun a b : ℚ => a ≤ b)
        ((exactCashMatches award cashFlights).filterMap (fun f => f.cashPrice)),
      List.perm_insertionSort _ _, List.sorted_insertionSort _ _, rfl⟩
  · intro hemp b hb
    unfold findCashComparable
    rw [if_neg (by simpa using hemp), hb]
  · intro hemp hsame b hother
    unfold findCashComparable
    rw [if_neg (by simpa using hemp), hsame]
    have hsb : stopBucketOf award.stops = 0 ∨ stopBucketOf award.stops = 1 := by
      unfold stopBucketOf
      by_cases h : award.stops = 0 <;> simp [h]
    rcases hsb with h0 | h0 <;>
      rw [h0] at hsame hother <;>
      norm_num at hother <;>
      simp [hsame, hother]
  · intro hemp h0 h1
    unfold findCashComparable
    rw [if_neg (by simpa using hemp)]
    have hsb : stopBucketOf award.stops = 0 ∨ stopBucketOf award.stops = 1 := by
      unfold stopBucketOf
      by_cases h : award.stops = 0 <;> simp [h]
    rcases hsb with h | h <;>
      rw [h] <;>
      simp [h0, h1]

/-- Three nonstop business cash fares sharing the award's carrier, with
prices 3200 / 2800 / 3000, for exercising the exact-match median. -/
def exMedCashA : Flight :=
  { id := "m1", source := "google", ftype := .cash, origin := "LAX",
    destination := "DXB", operatingAirlines := ["Emirates"], stops := 0,
    cabinClass := "business", cashPrice := some 3200 }

def exMedCashB : Flight :=
  { id := "m2", source := "google", ftype := .cash, origin := "LAX",
    destination := "DXB", operatingAirlines := ["Emirates"], stops := 0,
    cabinClass := "business", cashPrice := some 2800 }

def exMedCashC : Flight :=
  { id := "m3", source := "google", ftype := .cash, origin := "LAX",
    destination := "DXB", operatingAirlines := ["Emirates"], stops := 0,
    cabinClass := "business", cashPrice := some 3000 }

/-- C4 (witness): the third tier at a concrete input — a nonstop business
award with only a one-stop $3000 business cash fare in the search falls
through to the other stop bucket's average, recorded `same-cabin` — and the
first tier at a concrete input — with matching cash fares priced
3200 / 2800 / 3000 the comparable is their median 3000, recorded
`exact-match`. -/
theorem findCashComparable_tiers_witness :
    (findCashComparable exAwardBusiness [exBusinessCashOneStop] [exBusinessCashOneStop] =
      { price := 3000, src := .sameCabin }) ∧
    (∃ sorted : List ℚ,
      sorted.Perm
        ((exactCashMatches exAwardBusiness
          [exMedCashA, exMedCashB, exMedCashC]).filterMap (fun f => f.cashPrice)) ∧
      sorted.Sorted (· ≤ ·) ∧
      findCashComparable exAwardBusiness [exMedCashA, exMedCashB, exMedCashC]
          [exMedCashA, exMedCashB, exMedCashC] =
        { price := sorted.getD (sorted.length / 2) 0, src := .exactMatch }) ∧
    findCashComparable exAwardBusiness [exMedCashA, exMedCashB, exMedCashC]
        [exMedCashA, exMedCashB, exMedCashC] =
      { price := 3000, src := .exactMatch } := by
  refine ⟨?_, (findCashComparable_tiers exAwardBusiness
    [exMedCashA, exMedCashB, exMedCashC]
    [exMedCashA, exMedCashB, exMedCashC]).1 (by decide), by decide⟩
  have h := (findCashComparable_tiers exAwardBusiness [exBusinessCashOneStop]
    [exBusinessCashOneStop]).2.2.1
  have hb : cashBucketLookup [exBusinessCashOneStop] exAwardBusiness.cabinClass
      (1 - stopBucketOf exAwardBusiness.stops) =
      some { cabin := "business", stops := 1, prices := [3000], avgPrice := 3000 } := by
    norm_num [cashBucketLookup, bucketPrices, exBusinessCashOneStop, exAwardBusiness,
      isPricedCash, stopBucketOf, List.filter, List.filterMap]
  have := h (by decide) (by decide) _ hb
  rw [this]
  norm_num [round_eq]

/-! ## C5 / C6 — funding paths -/

/-- The balances of the spec's funding example: zero in the target program,
80,000 Chase UR. -/
def exBalances : List Balance :=
  [{ programKey := "UNITED", program := "United MileagePlus", balance := 0 },
   { programKey := "chase-ur", program := "Chase UR", balance := 80000 }]

/-- C5 (counterexample): with an 80,000 Chase UR balance, a 1.0-ratio edge to
the target and 50,000 needed, the single returned path stores
`milesReceived = 50000`, not `⌊80000 × 1.0⌋ = 80000` as the claim states —
the source clamps it with `Math.min(·, amountNeeded)`. -/
theorem findFundingPaths_milesReceived_clamped :
    (findFundingPaths "UNITED" 50000 exBalances).map (fun p => p.milesReceived) =
      [50000] ∧
    ((⌊(80000 : ℚ) * 1⌋ : ℤ) : ℚ) = 80000 ∧
    (50000 : ℚ) ≠ 80000 := by
  refine ⟨?_, by norm_num, by norm_num⟩
  simp [findFundingPaths, findTransferPaths, TRANSFER_PARTNERS, exBalances,
    List.insertionSort, List.orderedInsert, List.find?, List.filter, List.filterMap]
  norm_num [min_def]

/-- C5 (amended): for every transfer edge into the target program whose
source program holds a positive balance, `findFundingPaths` returns a path
for that edge with `milesReceived = min(⌊balance × ratio⌋, amountNeeded)` and
`pointsToTransfer = min(⌈amountNeeded / ratio⌉, balance)` (the claim's
unclamped `⌊balance × ratio⌋` and `⌈amountNeeded / ratio⌉` are clamped by
`Math.min` before being stored), and the path is flagged `covers` exactly
when the unclamped transfer alone — optionally plus the direct balance —
meets the amount needed. -/
theorem findFundingPaths_transfer_fields :
    ∀ tp ∈ TRANSFER_PARTNERS, ∀ (amountNeeded : ℚ) (balances : List Balance) (sb : Balance),
      balances.find? (fun b => b.programKey == tp.fromKey) = some sb →
      0 < sb.balance →
      ∃ path ∈ findFundingPaths tp.toKey amountNeeded balances,
        path.source = tp.fromKey ∧
        path.sourceBalance = sb.balance ∧
        path.milesReceived = min ((⌊sb.balance * tp.rate⌋ : ℤ) : ℚ) amountNeeded ∧
        path.pointsToTransfer = min ((⌈amountNeeded / tp.rate⌉ : ℤ) : ℚ) sb.balance ∧
        (path.covers = true ↔
          (amountNeeded ≤ ((⌊sb.balance * tp.rate⌋ : ℤ) : ℚ) ∨
           amountNeeded ≤ (match balances.find? (fun b => b.programKey == tp.toKey) with
             | some db => db.balance
             | none => 0) + ((⌊sb.balance * tp.rate⌋ : ℤ) : ℚ))) := by
  intro tp htp amountNeeded balances sb hfind hpos
  refine ⟨{ source := tp.fromKey, sourceName := tp.fromName,
            sourceBalance := sb.balance,
            pointsToTransfer := min ((⌈amountNeeded / tp.rate⌉ : ℤ) : ℚ) sb.balance,
            milesReceived := min ((⌊sb.balance * tp.rate⌋ : ℤ) : ℚ) amountNeeded,
            rate := tp.rate, transferTime := tp.transferTime,
            covers := decide (((⌊sb.balance * tp.rate⌋ : ℤ) : ℚ) ≥ amountNeeded ∨
              (match balances.find? (fun b => b.programKey == tp.toKey) with
               | some db => db.balance
               | none => 0) + ((⌊sb.balance * tp.rate⌋ : ℤ) : ℚ) ≥ amountNeeded),
            notes := tp.notes }, ?_, rfl, rfl, rfl, rfl, ?_⟩
  · unfold findFundingPaths
    rw [(List.perm_insertionSort fpLe _).mem_iff]
    apply List.mem_append_right
    apply List.mem_filterMap.2
    refine ⟨tp, ?_, ?_⟩
    · exact List.mem_filter.2 ⟨htp, by simp⟩
    · rw [hfind]
      dsimp only
      rw [if_neg (not_le.2 hpos)]
  · simp [ge_iff_le]

/-- C5 (witness): the amended theorem at the spec's funding example — the
Chase UR → United edge, an 80,000 Chase UR balance, 50,000 needed. -/
theorem findFundingPaths_transfer_fields_witness :
    ∃ path ∈ findFundingPaths "UNITED" 50000 exBalances,
      path.source = "chase-ur" ∧
      path.sourceBalance = 80000 ∧
      path.milesReceived = min ((⌊(80000 : ℚ) * 1⌋ : ℤ) : ℚ) 50000 ∧
      path.pointsToTransfer = min ((⌈(50000 : ℚ) / 1⌉ : ℤ) : ℚ) 80000 ∧
      (path.covers = true ↔
        ((50000 : ℚ) ≤ ((⌊(80000 : ℚ) * 1⌋ : ℤ) : ℚ) ∨
         (50000 : ℚ) ≤ (match exBalances.find? (fun b => b.programKey == "UNITED") with
           | some db => db.balance
           | none => 0) + ((⌊(80000 : ℚ) * 1⌋ : ℤ) : ℚ))) := by
  have h := findFundingPaths_transfer_fields
    { fromKey := "chase-ur", fromName := "Chase UR", toKey := "UNITED",
      toName := "United MileagePlus", rate := 1, transferTime := "instant",
      notes := none }
    (by decide) 50000 exBalances
    { programKey := "chase-ur", program := "Chase UR", balance := 80000 }
    (by decide) (by norm_num)
  simpa using h

/-- Heads-insertion lemma: a path tagged `"already have"` sorts (strictly)
before everything under `fpCmp`, so inserting it into any sorted tail puts it
first. -/
theorem orderedInsert_direct_head (d : FundingPath)
    (hd : d.transferTime = "already have") (l : List FundingPath) :
    List.orderedInsert fpLe d l = d :: l := by
  cases l with
  | nil => rfl
  | cons b t =>
      exact List.orderedInsert_of_le _ _ (by simp [fpLe, fpCmp, hd])

/-- C6 (confirmed): whenever the balance list's entry for the target program
is at least the (positive) amount needed, `findFundingPaths` returns the
direct-balance path ranked first, flagged `covers = true`. -/
theorem findFundingPaths_direct_first :
    ∀ (toProgramKey : String) (amountNeeded : ℚ) (balances : List Balance) (db : Balance),
      0 < amountNeeded →
      balances.find? (fun b => b.programKey == toProgramKey) = some db →
      amountNeeded ≤ db.balance →
      ∃ rest, findFundingPaths toProgramKey amountNeeded balances =
        { source := toProgramKey, sourceName := db.program,
          sourceBalance := db.balance, pointsToTransfer := 0,
          milesReceived := db.balance, rate := 1,
          transferTime := "already have", covers := true,
          notes := some "Direct balance" } :: rest := by
  intro toProgramKey amountNeeded balances db hamt hfind hcov
  unfold findFundingPaths
  rw [hfind]
  dsimp only
  rw [if_pos (show db.balance > 0 from lt_of_lt_of_le hamt hcov)]
  have hdec : decide (db.balance ≥ amountNeeded) = true := decide_eq_true hcov
  rw [hdec]
  rw [List.singleton_append]
  simp only [List.insertionSort]
  exact ⟨_, orderedInsert_direct_head _ rfl _⟩

/-- C6 (witness): a 60,000 United balance against 50,000 needed — the direct
path is first with `covers = true`. -/
theorem findFundingPaths_direct_first_witness :
    ∃ rest, findFundingPaths "UNITED" 50000
        [{ programKey := "UNITED", program := "United MileagePlus", balance := 60000 }] =
      { source := "UNITED", sourceName := "United MileagePlus",
        sourceBalance := 60000, pointsToTransfer := 0,
        milesReceived := 60000, rate := 1,
        transferTime := "already have", covers := true,
        notes := some "Direct balance" } :: rest :=
  findFundingPaths_direct_first "UNITED" 50000 _
    { programKey := "UNITED", program := "United MileagePlus", balance := 60000 }
    (by norm_num) (by decide) (by norm_num)

/-! ## C7 / C10 — sweet-spot matcher -/

/-- Dissection of a `matchSweetSpots` member: it comes from a rule of
`SWEET_SPOTS` that passed all four guards, and carries that rule as `spot`. -/
theorem matchSweetSpots_mem_spot (origin destination program cabin : String)
    (points : ℚ) (cc : Option ℚ) {m : SweetSpotMatch}
    (hm : m ∈ matchSweetSpots origin destination program cabin points cc) :
    m.spot ∈ SWEET_SPOTS ∧ m.spot.program = program ∧ m.spot.cabin = cabin ∧
      routeMatches m.spot origin destination = true ∧ points ≤ m.spot.maxPoints := by
  unfold matchSweetSpots at hm
  rw [(List.perm_insertionSort ssmLe _).mem_iff] at hm
  obtain ⟨spot, hspot, heq⟩ := List.mem_filterMap.1 hm
  rcases Decidable.em (spot.program ≠ program) with h1 | h1
  · rw [if_pos h1] at heq; cases heq
  rw [if_neg h1] at heq
  rcases Decidable.em (spot.cabin ≠ cabin) with h2 | h2
  · rw [if_pos h2] at heq; cases heq
  rw [if_neg h2] at heq
  rcases Decidable.em ((!(routeMatches spot origin destination)) = true) with h3 | h3
  · rw [if_pos h3] at heq; cases heq
  rw [if_neg h3] at heq
  rcases Decidable.em (points > spot.maxPoints) with h4 | h4
  · rw [if_pos h4] at heq; cases heq
  rw [if_neg h4] at heq
  obtain rfl := Option.some_injective _ heq
  push_neg at h1 h2 h4
  exact ⟨hspot, h1, h2, by simpa using h3, h4⟩

/-- C7 (confirmed): `matchSweetSpots` never returns a rule whose cabin
differs from the fare's cabin or whose `maxPoints` is below the fare's
points; and raising the fare's points above a returned rule's threshold
removes that rule from the match set. -/
theorem matchSweetSpots_cabin_and_threshold :
    (∀ (origin destination program cabin : String) (points : ℚ) (cc : Option ℚ),
      ∀ m ∈ matchSweetSpots origin destination program cabin points cc,
        m.spot.cabin = cabin ∧ points ≤ m.spot.maxPoints) ∧
    (∀ (origin destination program cabin : String) (points points' : ℚ)
        (cc cc' : Option ℚ),
      ∀ m ∈ matchSweetSpots origin destination program cabin points cc,
        m.spot.maxPoints < points' →
        ∀ m' ∈ matchSweetSpots origin destination program cabin points' cc',
          m'.spot ≠ m.spot) := by
  constructor
  · intro origin destination program cabin points cc m hm
    have h := matchSweetSpots_mem_spot origin destination program cabin points cc hm
    exact ⟨h.2.2.1, h.2.2.2.2⟩
  · intro origin destination program cabin points points' cc cc' m hm hraise m' hm' hspot
    have h' := matchSweetSpots_mem_spot origin destination program cabin points' cc' hm'
    rw [hspot] at h'
    exact absurd h'.2.2.2.2 (not_le.2 hraise)

/-- The first `SWEET_SPOTS` rule (Flying Blue US→Europe business). -/
def fbSpot : SweetSpot :=
  { id := "fb-us-europe-j", program := "FLYING_BLUE", programName := "Flying Blue",
    originRegions := ["US"], destRegions := ["Europe"],
    cabin := "business", maxPoints := 55000, typicalCashPrice := 4000, expectedCpp := 7,
    description := "Flying Blue J to Europe is one of the best sweet spots. 50-55K one-way on AF/KLM metal." }

/-- The match record the fb rule produces for a 50,000-point JFK→LHR
business fare. -/
def fbMatch : SweetSpotMatch :=
  { spot := fbSpot, matchScore := 82, pointsSaved := 5000, actualCpp := 8,
    label := "🎯 SWEET SPOT: " ++ fbSpot.description.take 60 }

/-- C7 (witness): the JFK→LHR Flying Blue business fare at 50,000 points
matches the `fb-us-europe-j` rule, and the theorem's conclusions hold for
that concrete match. -/
theorem matchSweetSpots_cabin_and_threshold_witness :
    fbMatch ∈ matchSweetSpots "JFK" "LHR" "FLYING_BLUE" "business" 50000 none ∧
    fbMatch.spot.cabin = "business" ∧ (50000 : ℚ) ≤ fbMatch.spot.maxPoints := by
  have hlist : matchSweetSpots "JFK" "LHR" "FLYING_BLUE" "business" 50000 none =
      [fbMatch] := by
    norm_num +decide [matchSweetSpots, SWEET_SPOTS, routeMatches, matchesRegion,
      US_AIRPORTS, EUROPE_AIRPORTS, ASIA_AIRPORTS, MIDDLE_EAST_AIRPORTS,
      OCEANIA_AIRPORTS, List.filterMap, List.insertionSort, List.orderedInsert,
      round_eq, min_def, fbMatch, fbSpot]
  have hmem : fbMatch ∈
      matchSweetSpots "JFK" "LHR" "FLYING_BLUE" "business" 50000 none := by
    rw [hlist]; exact List.mem_singleton_self _
  exact ⟨hmem, matchSweetSpots_cabin_and_threshold.1 "JFK" "LHR" "FLYING_BLUE"
    "business" 50000 none _ hmem⟩

/-- The Turkish US→IST rule: origin regions + explicit destination airports. -/
def tkSpot : SweetSpot :=
  { id := "tk-us-ist-j", program := "TURKISH", programName := "Turkish Miles&Smiles",
    originRegions := ["US"], destinations := ["IST"],
    cabin := "business", maxPoints := 45000, typicalCashPrice := 4000, expectedCpp := 8,
    description := "Turkish J to IST — 45K OW. Outstanding product and lounge." }

/-- C10 (confirmed): the matcher's route predicate supports a fourth shape —
rules with origin regions and an explicit destination-airport list (but no
explicit origin-airport list and no destination regions) exist in
`SWEET_SPOTS`, and such a rule's predicate holds exactly when the fare's
origin lies in a listed origin region and its destination is a listed
airport. -/
theorem routeMatches_originRegions_destinations :
    (∃ spot ∈ SWEET_SPOTS, spot.origins = [] ∧ spot.destRegions = [] ∧
      spot.originRegions ≠ [] ∧ spot.destinations ≠ []) ∧
    (∀ (spot : SweetSpot) (origin destination : String),
      spot.origins = [] → spot.destRegions = [] →
      spot.originRegions ≠ [] → spot.destinations ≠ [] →
      (routeMatches spot origin destination = true ↔
        (∃ r ∈ spot.originRegions, matchesRegion origin r = true) ∧
        destination ∈ spot.destinations)) := by
  constructor
  · exact ⟨tkSpot, by decide, by decide, by decide, by decide, by decide⟩
  · intro spot origin destination h1 h2 h3 h4
    unfold routeMatches
    simp [h1, h2, List.isEmpty_iff, h3, h4, List.any_eq_true]

/-- C10 (witness): the theorem applied to the `tk-us-ist-j` rule at JFK→IST:
the predicate holds since JFK is a US airport and IST is the listed
destination. -/
theorem routeMatches_originRegions_destinations_witness :
    routeMatches tkSpot "JFK" "IST" = true ∧ tkSpot ∈ SWEET_SPOTS := by
  constructor
  · exact (routeMatches_originRegions_destinations.2 tkSpot "JFK" "IST"
      (by decide) (by decide) (by decide) (by decide)).mpr
      ⟨⟨"US", by decide, by decide⟩, by decide⟩
  · decide

/-! ## C2 — poller termination and staleness -/

/-- Fuelled bound: from any loop state whose poll index satisfies the loop
invariant, the poll loop ends strictly before `maxWaitMs + 3000` ms. -/
theorem pollGo_timeMs_lt {α : Type} (resp : ℕ → PollResponse α) (maxWaitMs : ℕ) :
    ∀ (f i : ℕ) (lastPct : ℚ) (lastFareCount staleCount : ℕ),
      maxWaitMs ≤ i * 3000 + f * 3000 → (i = 0 ∨ (i - 1) * 3000 < maxWaitMs) →
      (pollGo resp maxWaitMs i lastPct lastFareCount staleCount).timeMs <
        maxWaitMs + 3000 := by
  intro f
  induction f with
  | zero =>
      intro i lp lfc sc hf hinv
      rw [pollGo, dif_neg (by omega)]
      dsimp only
      omega
  | succ f ih =>
      intro i lp lfc sc hf hinv
      rw [pollGo]
      by_cases hg : i * 3000 < maxWaitMs
      · rw [dif_pos hg]
        dsimp only
        by_cases hc : (resp i).percentCompleted ≥ 100
        · rw [if_pos hc]
          dsimp only
          omega
        · rw [if_neg hc]
          by_cases hs : (resp i).fares.length = lfc ∧ (resp i).percentCompleted = lp
          · rw [if_pos hs]
            by_cases h4 : sc + 1 ≥ 4
            · rw [if_pos h4]
              dsimp only
              omega
            · rw [if_neg h4]
              exact ih (i + 1) _ _ _ (by omega) (Or.inr (by omega))
          · rw [if_neg hs]
            exact ih (i + 1) _ _ _ (by omega) (Or.inr (by omega))
      · rw [dif_neg hg]
        dsimp only
        omega

/-- Plateau lemma: if the response stream is constant from poll `j` on, with
`j`'s percentage below 100, and the deadline leaves room for poll `j + 4`,
then from any loop state at index `i ≤ j + 4` satisfying the loop invariant
(for `i` past `j`, the last observation is `j`'s response and the stale
counter has grown at least `i − j − 1` steps) the loop returns at some poll
`i' ≤ j + 4`, through the completed site (with that poll at ≥ 100 %) or the
stalled site, carrying that poll's fares and percentage. -/
theorem pollGo_plateau {α : Type} (resp : ℕ → PollResponse α) (m j : ℕ)
    (hconst : ∀ k, j ≤ k → resp k = resp j)
    (hlt : (resp j).percentCompleted < 100)
    (hm : (j + 4) * 3000 < m) :
    ∀ (n i : ℕ) (lp : ℚ) (lfc sc : ℕ),
      i + n = j + 4 →
      (j < i → lp = (resp j).percentCompleted ∧ lfc = (resp j).fares.length ∧
        i ≤ j + 1 + sc) →
      ∃ i', i ≤ i' ∧ i' ≤ j + 4 ∧
        (pollGo resp m i lp lfc sc).timeMs = i' * 3000 ∧
        (pollGo resp m i lp lfc sc).fares = (resp i').fares ∧
        (pollGo resp m i lp lfc sc).percentCompleted = (resp i').percentCompleted ∧
        ((pollGo resp m i lp lfc sc).finish = .completed ∧
            100 ≤ (resp i').percentCompleted ∨
          (pollGo resp m i lp lfc sc).finish = .stalled) := by
  intro n
  induction n with
  | zero =>
      intro i lp lfc sc hi hside
      have hij : i = j + 4 := by omega
      subst hij
      obtain ⟨hlp, hlfc, hsc⟩ := hside (by omega)
      rw [pollGo, dif_pos (by omega)]
      dsimp only
      rw [hconst (j + 4) (by omega)]
      rw [if_neg (not_le.2 hlt), if_pos ⟨hlfc.symm, hlp.symm⟩, if_pos (by omega)]
      exact ⟨j + 4, le_refl _, le_refl _, rfl,
        by rw [hconst (j + 4) (by omega)],
        by rw [hconst (j + 4) (by omega)], Or.inr rfl⟩
  | succ n ih =>
      intro i lp lfc sc hi hside
      rw [pollGo, dif_pos (by omega)]
      dsimp only
      by_cases hc : (resp i).percentCompleted ≥ 100
      · rw [if_pos hc]
        exact ⟨i, le_refl _, by omega, rfl, rfl, rfl, Or.inl ⟨rfl, hc⟩⟩
      · rw [if_neg hc]
        by_cases hs : (resp i).fares.length = lfc ∧ (resp i).percentCompleted = lp
        · rw [if_pos hs]
          by_cases h4 : sc + 1 ≥ 4
          · rw [if_pos h4]
            exact ⟨i, le_refl _, by omega, rfl, rfl, rfl, Or.inr rfl⟩
          · rw [if_neg h4]
            have hstep : j < i + 1 →
                (resp i).percentCompleted = (resp j).percentCompleted ∧
                (resp i).fares.length = (resp j).fares.length ∧
                i + 1 ≤ j + 1 + (sc + 1) := by
              intro hji
              have hri : resp i = resp j := hconst i (by omega)
              refine ⟨by rw [hri], by rw [hri], ?_⟩
              by_cases hij : j < i
              · have := (hside hij).2.2
                omega
              · omega
            obtain ⟨i', hii', hle, ht, hf, hp, hfin⟩ :=
              ih (i + 1) (resp i).percentCompleted (resp i).fares.length (sc + 1)
                (by omega) hstep
            exact ⟨i', by omega, hle, ht, hf, hp, hfin⟩
        · rw [if_neg hs]
          have hstep : j < i + 1 →
              (resp i).percentCompleted = (resp j).percentCompleted ∧
              (resp i).fares.length = (resp j).fares.length ∧
              i + 1 ≤ j + 1 + 0 := by
            intro hji
            rcases (by omega : i = j ∨ j < i) with rfl | hij
            · exact ⟨rfl, rfl, by omega⟩
            · exfalso
              obtain ⟨hlp, hlfc, _⟩ := hside hij
              have hri : resp i = resp j := hconst i (by omega)
              exact hs ⟨by rw [hri, ← hlfc], by rw [hri, ← hlp]⟩
          obtain ⟨i', hii', hle, ht, hf, hp, hfin⟩ :=
            ih (i + 1) (resp i).percentCompleted (resp i).fares.length 0
              (by omega) hstep
          exact ⟨i', by omega, hle, ht, hf, hp, hfin⟩

/-- C2 (confirmed): for every response stream the poller returns strictly
within the deadline plus one (hardcoded 3 s) poll interval; and for every
stream that plateaus from some poll `j` on — every later poll repeating
poll `j`'s fare count and percentage, below 100 % — it terminates early, by
poll `j + 4` at the latest (four consecutive no-change polls), through a
normal return site: either completed (only at a ≥ 100 % poll before the
plateau) or stalled, in both cases carrying the returning poll's accumulated
fares and its observed percentage, never the timeout site. -/
theorem pollResults_deadline_and_stall :
    (∀ (α : Type) (resp : ℕ → PollResponse α) (maxWaitMs : ℕ),
      (pollResults resp maxWaitMs).timeMs < maxWaitMs + 3000) ∧
    (∀ (α : Type) (resp : ℕ → PollResponse α) (maxWaitMs j : ℕ),
      (∀ k, j ≤ k → resp k = resp j) →
      (resp j).percentCompleted < 100 →
      (j + 4) * 3000 < maxWaitMs →
      ∃ i ≤ j + 4,
        (pollResults resp maxWaitMs).timeMs = i * 3000 ∧
        (pollResults resp maxWaitMs).fares = (resp i).fares ∧
        (pollResults resp maxWaitMs).percentCompleted = (resp i).percentCompleted ∧
        ((pollResults resp maxWaitMs).finish = .completed ∧
            100 ≤ (resp i).percentCompleted ∨
          (pollResults resp maxWaitMs).finish = .stalled)) := by
  constructor
  · intro α resp maxWaitMs
    exact pollGo_timeMs_lt resp maxWaitMs maxWaitMs 0 0 0 0 (by omega) (Or.inl rfl)
  · intro α resp maxWaitMs j hconst hlt hm
    obtain ⟨i, h0, hle, ht, hf, hp, hfin⟩ :=
      pollGo_plateau resp maxWaitMs j hconst hlt hm (j + 4) 0 0 0 0 (by omega)
        (by omega)
    exact ⟨i, hle, ht, hf, hp, hfin⟩

/-- The plateauing response stream of the spec's poller scenario: 40 %
complete with two fares on every poll. -/
def exPollResp : ℕ → PollResponse Unit := fun _ => { percentCompleted := 40, fares := [(), ()] }

/-- C2 (witness): the theorem at the spec's scenario — a stream stuck at
40 % (a plateau from poll 0) returns the accumulated fares through the
stalled site within four polls, and within the 90 s deadline plus one
interval. -/
theorem pollResults_deadline_and_stall_witness :
    (pollResults exPollResp 90000).timeMs < 90000 + 3000 ∧
    ∃ i ≤ 0 + 4,
      (pollResults exPollResp 90000).timeMs = i * 3000 ∧
      (pollResults exPollResp 90000).fares = [(), ()] ∧
      (pollResults exPollResp 90000).percentCompleted = 40 ∧
      (pollResults exPollResp 90000).finish = .stalled := by
  have h1 := pollResults_deadline_and_stall.1 Unit exPollResp 90000
  obtain ⟨i, hle, ht, hf, hp, hfin⟩ :=
    pollResults_deadline_and_stall.2 Unit exPollResp 90000 0
      (fun _ _ => rfl) (by norm_num [exPollResp]) (by norm_num)
  refine ⟨h1, i, hle, ht, hf, hp, ?_⟩
  rcases hfin with ⟨_, habs⟩ | hst
  · exact absurd habs (by norm_num [exPollResp])
  · exact hst

/-! ## C8 — SerpAPI quota gate -/

/-- C8 (confirmed): with the persisted usage counter already at the monthly
cap for the current month, the SerpAPI adapter issues zero network calls and
returns an empty flight list with completion 0, leaving the persisted
counter untouched and emitting the quota warning — it returns normally
rather than failing. -/
theorem searchSerpApiGoogle_quota_skip :
    ∀ (key currentMonth searchClass : String) (u : SerpApiUsage)
      (fetch : ℕ → FetchOutcome),
      u.month = currentMonth → MONTHLY_LIMIT ≤ u.searches →
      searchSerpApiGoogle (some key) (some u) currentMonth searchClass fetch =
        { flights := [], completion := 0, networkCalls := 0,
          persisted := some u, warnings := [.quotaReached] } := by
  intro key currentMonth searchClass u fetch hmonth hcap
  simp [searchSerpApiGoogle, checkSerpApiUsage, hmonth, ge_iff_le,
    MONTHLY_LIMIT] at *
  simp [hcap]

/-- C8 (witness): the theorem at a concrete saturated counter
(95 searches in the current month). -/
theorem searchSerpApiGoogle_quota_skip_witness :
    searchSerpApiGoogle (some "k") (some { month := "2026-10", searches := 95 })
        "2026-10" "both" (fun _ => .ok []) =
      { flights := [], completion := 0, networkCalls := 0,
        persisted := some { month := "2026-10", searches := 95 },
        warnings := [.quotaReached] } :=
  searchSerpApiGoogle_quota_skip "k" "2026-10" "both"
    { month := "2026-10", searches := 95 } (fun _ => .ok []) rfl (by decide)

/-! ## C1 — orchestrator failure isolation -/

/-- `List.lookup` over a key-indexed map of a list containing the key. -/
theorem lookup_map_self {β : Type} (f : String → β) :
    ∀ (l : List String) (s : String), s ∈ l →
      (l.map (fun x => (x, f x))).lookup s = some (f s) := by
  intro l
  induction l with
  | nil => intro s hs; cases hs
  | cons a t ih =>
      intro s hs
      by_cases h : s = a
      · subst h
        simp [List.lookup]
      · have hst : s ∈ t := by
          rcases List.mem_cons.1 hs with h' | h'
          · exact absurd h' h
          · exact h'
        have hbeq : (s == a) = false := beq_false_of_ne h
        simp [List.lookup, hbeq, ih s hst]

/-- Scoring preserves the underlying flight. -/
theorem scoreOneFlight_base (flights cashFlights : List Flight)
    (balances : List Balance) (flight : Flight) :
    (scoreOneFlight flights cashFlights balances flight).base = flight := by
  unfold scoreOneFlight
  split <;> first
    | rfl
    | (split <;> rfl)

/-- C1 (confirmed): `runSearch` is a total function of the adapters'
settlements — no combination of failures can make it throw — and for every
configuration: a failed adapter contributes completion 0 under its source
key and no flights, a fulfilled adapter's completion is recorded under its
key and each of its flights appears (scored) in the output, and every output
flight originates from some fulfilled adapter. -/
theorem runSearch_isolates_failures :
    ∀ (config : SearchConfig) (balances : List Balance) (settle : String → Settlement),
      (∀ s ∈ activeSources config,
        (settle s = .failed →
          (runSearch config balances settle).completionPct.lookup s = some 0) ∧
        (∀ fl c, settle s = .ok { flights := fl, completion := c } →
          (runSearch config balances settle).completionPct.lookup s = some c ∧
          ∀ f ∈ fl, ∃ g ∈ (runSearch config balances settle).flights, g.base = f)) ∧
      (∀ g ∈ (runSearch config balances settle).flights,
        ∃ s ∈ activeSources config, ∃ fl c,
          settle s = .ok { flights := fl, completion := c } ∧ g.base ∈ fl) := by
  intro config balances settle
  have hcomp : (runSearch config balances settle).completionPct =
      (activeSources config).map (fun s =>
        (s, match settle s with
            | .ok r => r.completion
            | .failed => 0)) := rfl
  set merged := (activeSources config).flatMap (fun s =>
      match settle s with
      | .ok r => r.flights
      | .failed => []) with hmdef
  set cashF := merged.filter (fun f => f.ftype == .cash) with hcdef
  have hflights : (runSearch config balances settle).flights =
      List.insertionSort vsfValueScoreLe
        (merged.map (scoreOneFlight merged cashF balances)) := rfl
  have hmerged : ∀ f : Flight,
      (∃ g ∈ (runSearch config balances settle).flights, g.base = f) ↔ f ∈ merged := by
    intro f
    rw [hflights]
    constructor
    · rintro ⟨g, hg, hbase⟩
      rw [(List.perm_insertionSort vsfValueScoreLe _).mem_iff] at hg
      obtain ⟨f', hf', rfl⟩ := List.mem_map.1 hg
      rw [scoreOneFlight_base] at hbase
      subst hbase
      exact hf'
    · intro hf
      refine ⟨scoreOneFlight merged cashF balances f, ?_, scoreOneFlight_base _ _ _ _⟩
      rw [(List.perm_insertionSort vsfValueScoreLe _).mem_iff]
      exact List.mem_map.2 ⟨f, hf, rfl⟩
  refine ⟨?_, ?_⟩
  · intro s hs
    constructor
    · intro hfail
      rw [hcomp, lookup_map_self _ _ s hs]
      simp [hfail]
    · intro fl c hok
      constructor
      · rw [hcomp, lookup_map_self _ _ s hs]
        simp [hok]
      · intro f hf
        refine (hmerged f).2 ?_
        exact List.mem_flatMap.2 ⟨s, hs, by rw [hok]; exact hf⟩
  · intro g hg
    have hbase : g.base ∈ merged := (hmerged g.base).1 ⟨g, hg, rfl⟩
    rw [hmdef] at hbase
    obtain ⟨s, hs, hmem⟩ := List.mem_flatMap.1 hbase
    refine ⟨s, hs, ?_⟩
    cases hok : settle s with
    | ok r =>
        rw [hok] at hmem
        exact ⟨r.flights, r.completion, rfl, hmem⟩
    | failed =>
        rw [hok] at hmem
        cases hmem

/-- The configuration of the failure-isolation witness: all three sources. -/
def exConfig : SearchConfig :=
  { origin := "LAX", destination := "DXB",
    sources := ["roame", "google", "hidden-city"] }

/-- A settlement where the google adapter rejects and the other two fulfil. -/
def exSettle : String → Settlement := fun s =>
  if s = "roame" then .ok { flights := [exAwardBusiness], completion := 100 }
  else if s = "google" then .failed
  else .ok { flights := [exEconCash], completion := 100 }

/-- C1 (witness): with google rejecting mid-search, its key records
completion 0, roame's completion 100 is recorded, and roame's flight is
still present in the scored output. -/
theorem runSearch_isolates_failures_witness :
    (runSearch exConfig [] exSettle).completionPct.lookup "google" = some 0 ∧
    (runSearch exConfig [] exSettle).completionPct.lookup "roame" = some 100 ∧
    ∃ g ∈ (runSearch exConfig [] exSettle).flights, g.base = exAwardBusiness := by
  have h := runSearch_isolates_failures exConfig [] exSettle
  have hg := (h.1 "google" (by decide)).1 (by decide)
  have hr := (h.1 "roame" (by decide)).2 [exAwardBusiness] 100 (by decide)
  exact ⟨hg, hr.1, hr.2 exAwardBusiness (List.mem_singleton_self _)⟩
